import Mathlib

/-!
Verification development for the `genie-trusted-asset-copilot` repository.

The Python sources under `src/genie_trusted_asset_copilot/` are shallowly
embedded below.  Strings are Lean `String`s manipulated through explicit
`List Char` helpers so that every definition is executable and kernel
reducible; the Python string operations used by the code (`upper`, `lower`,
`split`, `strip`, `count`, `find`, `in`, slicing, `startswith`, `join`)
are modelled character by character, faithful to CPython semantics on the
ASCII texts the code manipulates.

External collaborators (the LLM services, the SQL statement-execution
engine, the Genie document store, the `sqlparse` formatting library and
the uuid generator) are modelled as explicit environment records passed to
the embedded functions, exactly at the call sites where the Python code
invokes them.  All machine integers are `Nat`/`Int`.
-/

namespace GenieCopilot

/-! ## Python string primitives -/

/-- Python whitespace for `str.split()` / `str.strip()`:
space, tab, newline, carriage return, vertical tab, form feed. -/
def isPyWs (c : Char) : Bool :=
  c = ' ' || c = '\t' || c = '\n' || c = '\r' || c = Char.ofNat 11 || c = Char.ofNat 12

/-- ASCII lower-casing of one character, modelling `str.lower()` on the
ASCII texts handled by the code. -/
def lowerChar (c : Char) : Char :=
  if 'A' ≤ c && c ≤ 'Z' then Char.ofNat (c.toNat + 32) else c

/-- ASCII upper-casing of one character, modelling `str.upper()`. -/
def upperChar (c : Char) : Char :=
  if 'a' ≤ c && c ≤ 'z' then Char.ofNat (c.toNat - 32) else c

/-- `str.lower()`. -/
def pyLower (s : String) : String := ⟨s.data.map lowerChar⟩

/-- `str.upper()`. -/
def pyUpper (s : String) : String := ⟨s.data.map upperChar⟩

/-- Split a character list into whitespace-separated words, dropping empty
pieces: this is Python `str.split()` with no argument. -/
def splitWsAux : List Char → List Char → List (List Char)
  | [], acc => if acc.isEmpty then [] else [acc.reverse]
  | c :: cs, acc =>
    if isPyWs c then
      if acc.isEmpty then splitWsAux cs [] else acc.reverse :: splitWsAux cs []
    else
      splitWsAux cs (c :: acc)

/-- `str.split()` (no separator argument). -/
def pySplitWs (s : String) : List String :=
  (splitWsAux s.data []).map List.asString

/-- Drop leading Python whitespace. -/
def dropLeadingWs : List Char → List Char
  | [] => []
  | c :: cs => if isPyWs c then dropLeadingWs cs else c :: cs

/-- `str.strip()` (no argument). -/
def pyStrip (s : String) : String :=
  ⟨(dropLeadingWs (dropLeadingWs s.data.reverse).reverse)⟩

/-- `sep.join(parts)`. -/
def pyJoin (sep : String) (parts : List String) : String :=
  String.intercalate sep parts

/-- Does `pat` occur at the head of `l`? -/
def charsStartWith (l pat : List Char) : Bool :=
  List.isPrefixOf pat l

/-- First index (in characters) at which `pat` occurs in `l`, modelling
Python `str.find` (as an `Option` instead of `-1`). -/
def charsFind : List Char → List Char → Option Nat
  | l, pat =>
    if charsStartWith l pat then some 0
    else
      match l with
      | [] => none
      | _ :: cs => (charsFind cs pat).map (· + 1)

/-- `pat in s` for strings, modelling the Python `in` operator. -/
def containsSub (s pat : String) : Bool :=
  (charsFind s.data pat.data).isSome

/-- Fuel-driven scanner for non-overlapping occurrence counting; each step
consumes at least one character, so `l.length` fuel always suffices. -/
def charsCountFuel : Nat → List Char → List Char → Nat
  | 0, _, _ => 0
  | fuel + 1, l, pat =>
    match l with
    | [] => 0
    | c :: cs =>
      if charsStartWith (c :: cs) pat then
        charsCountFuel fuel (List.drop (pat.length - 1) cs) pat + 1
      else
        charsCountFuel fuel cs pat

/-- Number of non-overlapping occurrences of `pat`, modelling
`str.count` for a non-empty pattern. -/
def charsCount (l pat : List Char) : Nat :=
  charsCountFuel l.length l pat

/-- `s.count(pat)` for a non-empty pattern. -/
def countSub (s pat : String) : Nat :=
  charsCount s.data pat.data

/-- `s.startswith(pat)`. -/
def startsWithSub (s pat : String) : Bool :=
  charsStartWith s.data pat.data

/-- Character-count slicing `s[i:]` (Python slices count code points). -/
def dropChars (s : String) (n : Nat) : String := ⟨s.data.drop n⟩

/-- Character-count slicing `s[:n]`. -/
def takeChars (s : String) (n : Nat) : String := ⟨s.data.take n⟩

/-- Number of code points, Python `len`. -/
def pyLen (s : String) : Nat := s.data.length

/-- Python truthiness of an optional string: `None` and `""` are falsy. -/
def truthy : Option String → Bool
  | none => false
  | some s => !s.data.isEmpty

/-- `a or b` for optional strings under Python truthiness, yielding the
first truthy value (or the last operand). -/
def pyOr (a b : Option String) : Option String :=
  if truthy a then a else b

/-! ## Data model (src/genie_trusted_asset_copilot/models.py) -/

/-- `SQLComplexity`: ordered classification of SQL query complexity. -/
inductive SQLComplexity where
  | simple
  | moderate
  | complex
deriving DecidableEq, Repr

/-- `ExtractedQuery`: a SQL query extracted from a Genie conversation. -/
structure ExtractedQuery where
  question : String
  sql : String
  execution_time_ms : Option Int := none
  message_id : String
  conversation_id : String
deriving DecidableEq, Repr

/-- `SQLParameter`: a parameter extracted from a SQL query. -/
structure SQLParameter where
  name : String
  sql_type : String
  original_value : String
  description : String
  default_value : Option String := none
deriving DecidableEq, Repr

/-- `ComplexityAnalysis`: analysis of SQL query complexity. -/
structure ComplexityAnalysis where
  complexity : SQLComplexity
  reasoning : String
  has_joins : Bool := false
  has_subqueries : Bool := false
  has_ctes : Bool := false
  has_window_functions : Bool := false
  has_aggregations : Bool := false
  join_count : Nat := 0
deriving DecidableEq, Repr

/-- `TrustedAssetCandidate`: a candidate for promotion to a trusted asset. -/
structure TrustedAssetCandidate where
  question : String
  sql : String
  complexity : ComplexityAnalysis
  execution_time_ms : Option Int := none
  message_id : String
  conversation_id : String
  parameters : List SQLParameter := []
  parameterized_sql : Option String := none
deriving DecidableEq, Repr

/-- `QueryParameter`: parameter definition for a Genie example entry. -/
structure QueryParameter where
  name : String
  type_hint : String := "STRING"
deriving DecidableEq, Repr

/-- `ExampleQuestionSQL`: a Genie space `example_question_sqls` entry. -/
structure ExampleQuestionSQL where
  id : String
  question : List String
  sql : List String
  usage_guidance : Option (List String) := none
  parameters : Option (List QueryParameter) := none
deriving DecidableEq, Repr

/-- `SqlFunction`: a Genie space `sql_functions` entry. -/
structure SqlFunction where
  id : String
  identifier : String
deriving DecidableEq, Repr

/-- `CreationResult`: outcome of creating a trusted asset or UC function. -/
structure CreationResult where
  success : Bool
  asset_type : String
  name : String
  error : Option String := none
deriving DecidableEq, Repr

/-! ## Complexity evaluator
(src/genie_trusted_asset_copilot/complexity_evaluator.py) -/

/-- The fixed window-function keyword list of `_fallback_analysis`. -/
def windowKeywords : List String :=
  ["OVER(", "OVER (", "PARTITION BY", "ROW_NUMBER", "RANK(", "DENSE_RANK", "LAG(", "LEAD("]

/-- The fixed aggregation keyword list of `_fallback_analysis`. -/
def aggKeywords : List String :=
  ["GROUP BY", "SUM(", "COUNT(", "AVG(", "MAX(", "MIN("]

/-- Local `join_count` of `_fallback_analysis`: `sql_upper.count(" JOIN ")`. -/
def joinCountOf (sql : String) : Nat := countSub (pyUpper sql) " JOIN "

/-- Local `has_joins` of `_fallback_analysis`: `join_count > 0`. -/
def hasJoinsOf (sql : String) : Bool := joinCountOf sql > 0

/-- Local `has_subqueries` of `_fallback_analysis`:
`"SELECT" in sql_upper[sql_upper.find("FROM"):] if "FROM" in sql_upper else False`. -/
def hasSubqueriesOf (sql : String) : Bool :=
  match charsFind (pyUpper sql).data "FROM".data with
  | some i => containsSub (dropChars (pyUpper sql) i) "SELECT"
  | none => false

/-- Local `has_ctes` of `_fallback_analysis`:
`sql_upper.strip().startswith("WITH ")`. -/
def hasCtesOf (sql : String) : Bool := startsWithSub (pyStrip (pyUpper sql)) "WITH "

/-- Local `has_window_functions` of `_fallback_analysis`. -/
def hasWindowOf (sql : String) : Bool :=
  windowKeywords.any (fun kw => containsSub (pyUpper sql) kw)

/-- Local `has_aggregations` of `_fallback_analysis`. -/
def hasAggOf (sql : String) : Bool :=
  aggKeywords.any (fun kw => containsSub (pyUpper sql) kw)

/-- `ComplexityEvaluator._fallback_analysis`: deterministic keyword-based
heuristic classification of a SQL string, used when the LLM call fails.
The Python locals are the named helper definitions above. -/
def fallback_analysis (sql : String) : ComplexityAnalysis :=
  if hasWindowOf sql || hasCtesOf sql || decide (joinCountOf sql ≥ 3) || hasSubqueriesOf sql then
    { complexity := .complex
      reasoning := "Query contains advanced SQL features (window functions, CTEs, multiple JOINs, or subqueries)"
      has_joins := hasJoinsOf sql, has_subqueries := hasSubqueriesOf sql, has_ctes := hasCtesOf sql
      has_window_functions := hasWindowOf sql, has_aggregations := hasAggOf sql
      join_count := joinCountOf sql }
  else if hasJoinsOf sql || hasAggOf sql then
    { complexity := .moderate
      reasoning := "Query contains JOINs or aggregations"
      has_joins := hasJoinsOf sql, has_subqueries := hasSubqueriesOf sql, has_ctes := hasCtesOf sql
      has_window_functions := hasWindowOf sql, has_aggregations := hasAggOf sql
      join_count := joinCountOf sql }
  else
    { complexity := .simple
      reasoning := "Simple query with basic SELECT/WHERE operations"
      has_joins := hasJoinsOf sql, has_subqueries := hasSubqueriesOf sql, has_ctes := hasCtesOf sql
      has_window_functions := hasWindowOf sql, has_aggregations := hasAggOf sql
      join_count := joinCountOf sql }

/-- The `complexity_order` total order used by `evaluate_queries`. -/
def complexity_order : SQLComplexity → Nat
  | .simple => 0
  | .moderate => 1
  | .complex => 2

/-- Assembling a `TrustedAssetCandidate` from a query, its analysis and the
parameter-extractor output, as in the body of `evaluate_queries`. -/
def mkCandidate (q : ExtractedQuery) (analysis : ComplexityAnalysis)
    (extraction : List SQLParameter × Option String) : TrustedAssetCandidate :=
  { question := q.question
    sql := q.sql
    complexity := analysis
    execution_time_ms := q.execution_time_ms
    message_id := q.message_id
    conversation_id := q.conversation_id
    parameters := extraction.1
    parameterized_sql := extraction.2 }

/-- `ComplexityEvaluator.evaluate_queries`, parameterized by the external
classifier (`analyze_query`, LLM with heuristic fallback) and the external
parameter extractor (`extract_parameters`), both opaque collaborators. -/
def evaluate_queries (classify : String → ComplexityAnalysis)
    (extract : String → String → List SQLParameter × Option String)
    (queries : List ExtractedQuery) (complexity_threshold : SQLComplexity) :
    List TrustedAssetCandidate :=
  match queries with
  | [] => []
  | q :: rest =>
    let analysis := classify q.sql
    if complexity_order analysis.complexity ≥ complexity_order complexity_threshold then
      mkCandidate q analysis (extract q.sql q.question) ::
        evaluate_queries classify extract rest complexity_threshold
    else
      evaluate_queries classify extract rest complexity_threshold

/-! ## Theorems about the complexity evaluator -/

theorem mkCandidate_inj {q q' : ExtractedQuery} {a a'} {e e'}
    (h : mkCandidate q a e = mkCandidate q' a' e') : q = q' := by
  cases q; cases q'
  simp only [mkCandidate, TrustedAssetCandidate.mk.injEq] at h
  simp_all

theorem evaluate_queries_eq (classify : String → ComplexityAnalysis)
    (extract : String → String → List SQLParameter × Option String)
    (queries : List ExtractedQuery) (thr : SQLComplexity) :
    evaluate_queries classify extract queries thr
      = (queries.filter
          (fun q => complexity_order (classify q.sql).complexity ≥ complexity_order thr)).map
          (fun q => mkCandidate q (classify q.sql) (extract q.sql q.question)) := by
  induction queries with
  | nil => rfl
  | cons q rest ih =>
    by_cases h : complexity_order (classify q.sql).complexity ≥ complexity_order thr
    · simp [evaluate_queries, List.filter_cons, h, ih]
    · simp [evaluate_queries, List.filter_cons, h, ih]

/-- **C4**: `_fallback_analysis` is a total function of the SQL string (it
cannot raise); it classifies COMPLEX iff a window keyword from the fixed
set occurs in the uppercased text, or the trimmed uppercased text starts
with "WITH ", or the count of " JOIN " occurrences is at least 3, or a
"SELECT" occurs at or after the position of the first "FROM"; otherwise
MODERATE iff the join count is positive or an aggregation keyword occurs;
otherwise SIMPLE; the returned `join_count` is the " JOIN " count, and
repeated calls yield identical `ComplexityAnalysis` values. -/
theorem C4_fallback_heuristic (sql : String) :
    ((fallback_analysis sql).complexity = .complex ↔
      (windowKeywords.any (fun kw => containsSub (pyUpper sql) kw) = true
        ∨ startsWithSub (pyStrip (pyUpper sql)) "WITH " = true
        ∨ 3 ≤ countSub (pyUpper sql) " JOIN "
        ∨ (∃ i, charsFind (pyUpper sql).data "FROM".data = some i
              ∧ containsSub (dropChars (pyUpper sql) i) "SELECT" = true)))
  ∧ ((fallback_analysis sql).complexity = .moderate ↔
      ((fallback_analysis sql).complexity ≠ .complex
        ∧ (0 < countSub (pyUpper sql) " JOIN "
            ∨ aggKeywords.any (fun kw => containsSub (pyUpper sql) kw) = true)))
  ∧ ((fallback_analysis sql).complexity = .simple ↔
      ((fallback_analysis sql).complexity ≠ .complex
        ∧ ¬ (0 < countSub (pyUpper sql) " JOIN "
              ∨ aggKeywords.any (fun kw => containsSub (pyUpper sql) kw) = true)))
  ∧ (fallback_analysis sql).join_count = countSub (pyUpper sql) " JOIN "
  ∧ fallback_analysis sql = fallback_analysis sql := by
  have hsubq :
      (match charsFind (pyUpper sql).data "FROM".data with
        | some i => containsSub (dropChars (pyUpper sql) i) "SELECT"
        | none => false) = true ↔
      (∃ i, charsFind (pyUpper sql).data "FROM".data = some i
          ∧ containsSub (dropChars (pyUpper sql) i) "SELECT" = true) := by
    cases h : charsFind (pyUpper sql).data "FROM".data with
    | none => simp
    | some i => simp
  have hchar :
      ((fallback_analysis sql).complexity = .complex ↔
        (hasWindowOf sql || hasCtesOf sql || decide (joinCountOf sql ≥ 3)
          || hasSubqueriesOf sql) = true)
    ∧ ((fallback_analysis sql).complexity = .moderate ↔
        ((hasWindowOf sql || hasCtesOf sql || decide (joinCountOf sql ≥ 3)
            || hasSubqueriesOf sql) = false
          ∧ (hasJoinsOf sql || hasAggOf sql) = true))
    ∧ ((fallback_analysis sql).complexity = .simple ↔
        ((hasWindowOf sql || hasCtesOf sql || decide (joinCountOf sql ≥ 3)
            || hasSubqueriesOf sql) = false
          ∧ (hasJoinsOf sql || hasAggOf sql) = false))
    ∧ (fallback_analysis sql).join_count = countSub (pyUpper sql) " JOIN " := by
    cases hb1 : (hasWindowOf sql || hasCtesOf sql || decide (joinCountOf sql ≥ 3)
        || hasSubqueriesOf sql) <;>
      cases hb2 : (hasJoinsOf sql || hasAggOf sql) <;>
        · simp only [fallback_analysis, hb1, hb2]
          simp [joinCountOf]
  obtain ⟨h1, h2, h3, h4⟩ := hchar
  refine ⟨?_, ?_, ?_, h4, rfl⟩
  · rw [h1]
    simp only [hasWindowOf, hasCtesOf, joinCountOf, hasSubqueriesOf,
      Bool.or_eq_true, decide_eq_true_eq, hsubq, or_assoc, ge_iff_le]
  · rw [h2]
    simp only [Ne, h1, hasWindowOf, hasCtesOf, joinCountOf, hasSubqueriesOf, hasJoinsOf,
      hasAggOf, Bool.not_eq_true, Bool.or_eq_true, decide_eq_true_eq, gt_iff_lt,
      Bool.or_eq_false_iff, decide_eq_false_iff_not, not_or, not_le, not_lt]
  · rw [h3]
    simp only [Ne, h1, hasWindowOf, hasCtesOf, joinCountOf, hasSubqueriesOf, hasJoinsOf,
      hasAggOf, Bool.not_eq_true, Bool.or_eq_true, decide_eq_true_eq, gt_iff_lt,
      Bool.or_eq_false_iff, decide_eq_false_iff_not, not_or, not_le, not_lt]

/-- **C5**: `evaluate_queries` produces, in input order, a candidate for
exactly those queries whose classified tier is at least the threshold
under SIMPLE < MODERATE < COMPLEX; a query classified COMPLEX is retained
at every threshold, and a query classified SIMPLE only at threshold
SIMPLE. -/
theorem C5_threshold_retention (classify : String → ComplexityAnalysis)
    (extract : String → String → List SQLParameter × Option String) :
    (∀ (queries : List ExtractedQuery) (thr : SQLComplexity),
      evaluate_queries classify extract queries thr
        = (queries.filter
            (fun q => complexity_order (classify q.sql).complexity ≥ complexity_order thr)).map
            (fun q => mkCandidate q (classify q.sql) (extract q.sql q.question)))
  ∧ (∀ (q : ExtractedQuery) (qs : List ExtractedQuery) (thr : SQLComplexity),
      q ∈ qs → (classify q.sql).complexity = .complex →
      mkCandidate q (classify q.sql) (extract q.sql q.question)
        ∈ evaluate_queries classify extract qs thr)
  ∧ (∀ (q : ExtractedQuery) (qs : List ExtractedQuery) (thr : SQLComplexity),
      (classify q.sql).complexity = .simple → thr ≠ .simple →
      mkCandidate q (classify q.sql) (extract q.sql q.question)
        ∉ evaluate_queries classify extract qs thr) := by
  refine ⟨evaluate_queries_eq classify extract, ?_, ?_⟩
  · intro q qs thr hq hcplx
    rw [evaluate_queries_eq]
    refine List.mem_map_of_mem _ (List.mem_filter.mpr ⟨hq, ?_⟩)
    rw [hcplx]
    cases thr <;> simp [complexity_order]
  · intro q qs thr hsimple hthr hmem
    rw [evaluate_queries_eq] at hmem
    rcases List.mem_map.mp hmem with ⟨q', hq', heq⟩
    have hqq : q' = q := mkCandidate_inj heq
    subst hqq
    have hfil := (List.mem_filter.mp hq').2
    rw [hsimple] at hfil
    cases thr <;> simp [complexity_order] at hfil hthr ⊢

/-- Witness for C5: a CTE query (classified COMPLEX by the fallback
classifier) is retained at threshold MODERATE, and a plain SELECT
(classified SIMPLE) is not retained at threshold COMPLEX. -/
theorem C5_threshold_retention_witness :
    (mkCandidate ⟨"q", "WITH T2 AS (SELECT 1) SELECT * FROM T2", none, "m", "c"⟩
        (fallback_analysis "WITH T2 AS (SELECT 1) SELECT * FROM T2") ([], none)
      ∈ evaluate_queries fallback_analysis (fun _ _ => ([], none))
          [⟨"q", "WITH T2 AS (SELECT 1) SELECT * FROM T2", none, "m", "c"⟩] .moderate)
  ∧ (mkCandidate ⟨"p", "SELECT 1", none, "m", "c"⟩
        (fallback_analysis "SELECT 1") ([], none)
      ∉ evaluate_queries fallback_analysis (fun _ _ => ([], none))
          [⟨"p", "SELECT 1", none, "m", "c"⟩] .complex) := by
  constructor
  · exact (C5_threshold_retention fallback_analysis (fun _ _ => ([], none))).2.1
      _ _ .moderate (by simp) (by decide)
  · exact (C5_threshold_retention fallback_analysis (fun _ _ => ([], none))).2.2
      _ _ .complex (by decide) (by decide)

/-! ## Conversation reader
(src/genie_trusted_asset_copilot/conversation_reader.py) -/

/-- `MessageStatus` values relevant to `_is_successful_message`. -/
inductive MessageStatus where
  | completed
  | executingQuery
  | failed
  | cancelled
  | submitted
deriving DecidableEq, Repr

/-- `SUCCESSFUL_STATUSES`: statuses indicating successful SQL generation. -/
def SUCCESSFUL_STATUSES : List MessageStatus :=
  [.completed, .executingQuery]

/-- The `query` object of a message attachment: the generated SQL text and
the execution-time metadata (`execution_time_ms`-style field). -/
structure AttachmentQuery where
  query : Option String
  execution_time_ms : Option Int := none
deriving DecidableEq, Repr

/-- A message attachment carrying an optional query object. -/
structure GenieAttachment where
  query : Option AttachmentQuery := none
deriving DecidableEq, Repr

/-- A Genie conversation message as used by the reader: content text,
attachments, status and message id. -/
structure GenieMessage where
  content : Option String := none
  attachments : List GenieAttachment := []
  status : Option MessageStatus := none
  id : Option String := none
deriving DecidableEq, Repr

/-- A Genie conversation summary: id and title. -/
structure GenieConversation where
  conversation_id : String
  title : Option String := none
deriving DecidableEq, Repr

/-- The conversation source consumed by `extract_all_queries`:
`conversations` is the output of `list_conversations`, `messages` the paged
result of `get_conversation_messages` per conversation id, and
`fetchMessage` models `genie.get_message` (`none` = the call raised). -/
structure ReaderEnv where
  conversations : List GenieConversation
  messages : String → List GenieMessage
  fetchMessage : String → String → Option GenieMessage

/-- `ConversationReader._is_successful_message`. -/
def is_successful_message (m : GenieMessage) : Bool :=
  match m.status with
  | none => !m.attachments.isEmpty
  | some s => SUCCESSFUL_STATUSES.contains s

/-- `ConversationReader._extract_sql_from_message`: the first attachment
whose query object carries a truthy (non-empty) SQL string. -/
def extract_sql_from_message (m : GenieMessage) : Option String :=
  if m.attachments.isEmpty then none
  else
    m.attachments.findSome? (fun a =>
      match a.query with
      | some q =>
        match q.query with
        | some s => if s.data.isEmpty then none else some s
        | none => none
      | none => none)

/-- `ConversationReader._extract_execution_time`. -/
def extract_execution_time (m : GenieMessage) : Option Int :=
  if m.attachments.isEmpty then none
  else m.attachments.findSome? (fun a => a.query.bind (·.execution_time_ms))

/-- `ConversationReader._normalize_question`:
`" ".join(question.lower().split())`. -/
def normalize_question (question : String) : String :=
  pyJoin " " (pySplitWs (pyLower question))

/-- Accumulated state of the `extract_all_queries` loop: the extracted
queries, the `seen_questions` set (as an insertion-ordered list) and the
`duplicates_skipped` counter. -/
structure ExtractState where
  queries : List ExtractedQuery := []
  seen : List String := []
  duplicates_skipped : Nat := 0
deriving DecidableEq, Repr

/-- `message_id = msg.id or f"{conv_id}_{i}"`. -/
def message_id_of (convId : String) (i : Nat) (msg' : GenieMessage) : String :=
  if truthy msg'.id then msg'.id.getD "" else convId ++ "_" ++ toString i

/-- The question paired with a SQL response:
`last_user_question or msg.content or conv_title`. -/
def question_of (convTitle : String) (lastQ : Option String)
    (msg' : GenieMessage) : String :=
  (pyOr lastQ (pyOr msg'.content (some convTitle))).getD ""

/-- The tail of one message iteration of `extract_all_queries`, after the
possible `get_message` refetch has determined the message `msg'` and the
SQL `sql` (the `if sql:` block of the source). -/
def emitQuery (convId convTitle : String) (i : Nat) (state : ExtractState)
    (lastQ : Option String) (msg' : GenieMessage) (sql : Option String) :
    ExtractState × Option String :=
  if truthy sql then
    if state.seen.contains (normalize_question (question_of convTitle lastQ msg')) then
      ({ state with duplicates_skipped := state.duplicates_skipped + 1 }, none)
    else
      ({ state with
          queries := state.queries ++
            [{ question := question_of convTitle lastQ msg'
               sql := sql.getD ""
               execution_time_ms := extract_execution_time msg'
               message_id := message_id_of convId i msg'
               conversation_id := convId }]
          seen := state.seen ++ [normalize_question (question_of convTitle lastQ msg')] },
        none)
  else
    (state, lastQ)

/-- One iteration of the inner message loop of `extract_all_queries`; the
second state component is the `last_user_question` local. -/
def processMessage (env : ReaderEnv) (convId convTitle : String)
    (st : ExtractState × Option String) (im : Nat × GenieMessage) :
    ExtractState × Option String :=
  let state := st.1
  let lastQ := st.2
  let i := im.1
  let msg := im.2
  let hasAtt := !msg.attachments.isEmpty
  if truthy msg.content && !hasAtt then
    (state, msg.content)
  else if !is_successful_message msg then
    (state, lastQ)
  else
    let sql0 := extract_sql_from_message msg
    let fetched :=
      if !truthy sql0 && truthy msg.id then
        match env.fetchMessage convId (msg.id.getD "") with
        | some fm =>
          let s := extract_sql_from_message fm
          (if truthy s then fm else msg, s)
        | none => (msg, none)
      else (msg, sql0)
    emitQuery convId convTitle i state lastQ fetched.1 fetched.2

/-- One iteration of the outer conversation loop of `extract_all_queries`:
`last_user_question` starts at `None` per conversation, the conversation
title defaults to "Untitled" under Python truthiness. -/
def processConversation (env : ReaderEnv) (state : ExtractState)
    (conv : GenieConversation) : ExtractState :=
  let convTitle := (pyOr conv.title (some "Untitled")).getD ""
  let msgs := env.messages conv.conversation_id
  (msgs.enum.foldl (processMessage env conv.conversation_id convTitle) (state, none)).1

/-- `ConversationReader.extract_all_queries`: extract unique-question
queries from all conversations; also returns the `duplicates_skipped`
counter that the code reports in its log line. -/
def extract_all_queries (env : ReaderEnv) : List ExtractedQuery × Nat :=
  let final := env.conversations.foldl (processConversation env) {}
  (final.queries, final.duplicates_skipped)

/-! ### `parse_timestamp` (conversation_reader.py, lines 28-104)

The function is modelled as a pure function of the current instant
(`nowMs`, Unix milliseconds) and the input string, returning
`Except String Int` (`error` = the `ValueError` raised).  The CPython
`strptime` behaviour for the six ISO formats and the date format is
modelled field by field after `_strptime.TimeRE` (full match required,
`re.IGNORECASE` on literal letters, the 3.11 field patterns), with the
`datetime` constructor range checks (year at least 1, day within month,
offset strictly below 24 hours) causing the format to be skipped exactly
as the caught `ValueError` does.  `int(dt.timestamp() * 1000)` is modelled
as exact integer truncation toward zero (`Int.div` by 1000). -/

/-- Numeric value of a digit list. -/
def natOfDigits (ds : List Char) : Nat :=
  ds.foldl (fun n c => n * 10 + (c.toNat - 48)) 0

/-- Non-overlapping substring replacement, modelling `str.replace` for a
non-empty pattern (fuel-driven; one character is consumed per step). -/
def charsReplace : Nat → List Char → List Char → List Char → List Char
  | 0, l, _, _ => l
  | fuel + 1, l, pat, rep =>
    match l with
    | [] => []
    | c :: cs =>
      if charsStartWith (c :: cs) pat then
        rep ++ charsReplace fuel (List.drop pat.length (c :: cs)) pat rep
      else
        c :: charsReplace fuel cs pat rep

/-- `s.replace(pat, rep)` for a non-empty pattern. -/
def replaceSub (s pat rep : String) : String :=
  ⟨charsReplace s.data.length s.data pat.data rep.data⟩

/-- Milliseconds per relative-timestamp unit (`m`, `h`, `d`, `w`). -/
def unit_ms : Char → Nat
  | 'm' => 60000
  | 'h' => 3600000
  | 'd' => 86400000
  | 'w' => 604800000
  | _ => 0

/-- The relative-format regex `^(\d+)([dhwm])$` with `re.IGNORECASE`:
one or more digits followed by one unit letter (either case). -/
def matchRelative (s : String) : Option (Nat × Char) :=
  match s.data.getLast? with
  | none => none
  | some u =>
    let ds := s.data.dropLast
    if !ds.isEmpty && ds.all Char.isDigit
        && (['d', 'h', 'w', 'm'] : List Char).contains (lowerChar u) then
      some (natOfDigits ds, lowerChar u)
    else none

/-- Expect one exact character. -/
def pFixed (c : Char) : List Char → Option (List Char)
  | x :: r => if x = c then some r else none
  | [] => none

/-- Expect one letter case-insensitively (strptime compiles the format
with `re.IGNORECASE`, so literal `T`/`Z` also match `t`/`z`). -/
def pFixedCI (c : Char) : List Char → Option (List Char)
  | x :: r => if lowerChar x = lowerChar c then some r else none
  | [] => none

/-- `%Y`: exactly four digits. -/
def p4Digits : List Char → Option (Nat × List Char)
  | a :: b :: c :: d :: r =>
    if a.isDigit && b.isDigit && c.isDigit && d.isDigit then
      some ((((a.toNat - 48) * 10 + (b.toNat - 48)) * 10 + (c.toNat - 48)) * 10
        + (d.toNat - 48), r)
    else none
  | _ => none

/-- Exactly two digits, any value (used by `%z` hours). -/
def pDigitPair : List Char → Option (Nat × List Char)
  | a :: b :: r =>
    if a.isDigit && b.isDigit then some ((a.toNat - 48) * 10 + (b.toNat - 48), r)
    else none
  | _ => none

/-- Exactly two digits `[0-5]\d` (used by `%z` minutes/seconds). -/
def pPair59 : List Char → Option (Nat × List Char)
  | a :: b :: r =>
    if a.isDigit && b.isDigit && a.toNat - 48 ≤ 5 then
      some ((a.toNat - 48) * 10 + (b.toNat - 48), r)
    else none
  | _ => none

/-- A one-or-two digit strptime field: the two-digit alternatives are
tried first (as in the `TimeRE` alternations), falling back to a single
digit; with `spaceAlt` the `%d` alternative ` [1-9]` is included.  The
following literal is never a digit in the formats used here, so this
local choice coincides with the regex engine's backtracking. -/
def p2or1 (valid2 : Nat → Nat → Bool) (valid1 : Nat → Bool) (spaceAlt : Bool) :
    List Char → Option (Nat × List Char)
  | c1 :: c2 :: r =>
    if c1.isDigit && c2.isDigit && valid2 (c1.toNat - 48) (c2.toNat - 48) then
      some ((c1.toNat - 48) * 10 + (c2.toNat - 48), r)
    else if spaceAlt && c1 = ' ' && c2.isDigit && 1 ≤ c2.toNat - 48 then
      some (c2.toNat - 48, r)
    else if c1.isDigit && valid1 (c1.toNat - 48) then
      some (c1.toNat - 48, c2 :: r)
    else none
  | [c1] =>
    if c1.isDigit && valid1 (c1.toNat - 48) then some (c1.toNat - 48, [])
    else none
  | [] => none

/-- `%m`: `1[0-2]|0[1-9]|[1-9]`. -/
def pMonth : List Char → Option (Nat × List Char) :=
  p2or1 (fun d1 d2 => (d1 = 1 && d2 ≤ 2) || (d1 = 0 && 1 ≤ d2)) (fun d => 1 ≤ d) false

/-- `%d`: `3[0-1]|[1-2]\d|0[1-9]|[1-9]| [1-9]`. -/
def pDay : List Char → Option (Nat × List Char) :=
  p2or1 (fun d1 d2 => (d1 = 3 && d2 ≤ 1) || d1 = 1 || d1 = 2 || (d1 = 0 && 1 ≤ d2))
    (fun d => 1 ≤ d) true

/-- `%H`: `2[0-3]|[0-1]\d|\d`. -/
def pHour : List Char → Option (Nat × List Char) :=
  p2or1 (fun d1 d2 => (d1 = 2 && d2 ≤ 3) || d1 ≤ 1) (fun _ => true) false

/-- `%M`/`%S`: `[0-5]\d|\d`.  (`%S` also matches `6[0-1]`, but a parsed
60/61 is rejected by the `datetime` constructor and the format skipped,
which is observationally the same as not matching it.) -/
def pMinSec : List Char → Option (Nat × List Char) :=
  p2or1 (fun d1 _ => d1 ≤ 5) (fun _ => true) false

/-- `%Y-%m-%d`. -/
def pDateYmd (l : List Char) : Option ((Nat × Nat × Nat) × List Char) := do
  let (y, l) ← p4Digits l
  let l ← pFixed '-' l
  let (mo, l) ← pMonth l
  let l ← pFixed '-' l
  let (d, l) ← pDay l
  pure ((y, mo, d), l)

/-- `%H:%M:%S`. -/
def pTimeHms (l : List Char) : Option ((Nat × Nat × Nat) × List Char) := do
  let (h, l) ← pHour l
  let l ← pFixed ':' l
  let (mi, l) ← pMinSec l
  let l ← pFixed ':' l
  let (s, l) ← pMinSec l
  pure ((h, mi, s), l)

/-- `.%f`: a literal dot and one to six digits (microseconds, padded). -/
def pDotFrac (l : List Char) : Option (Nat × List Char) :=
  match l with
  | '.' :: rr =>
    let ds := rr.takeWhile Char.isDigit
    if 1 ≤ ds.length && ds.length ≤ 6 then
      some (natOfDigits ds * 10 ^ (6 - ds.length), rr.drop ds.length)
    else none
  | _ => none

/-- Build a `%z` offset (in microseconds) from its parsed pieces, applying
the `datetime.timezone` bound (strictly below 24 hours); `none` models the
`ValueError` that makes strptime skip the format. -/
def mkTzOffset (negative : Bool) (hh mm ss frac : Nat) :
    Option Int :=
  let totalUs : Nat := (hh * 3600 + mm * 60 + ss) * 1000000 + frac
  if totalUs < 86400000000 then
    some (if negative then -(totalUs : Int) else (totalUs : Int))
  else none

/-- `%z`: `[+-]\d\d:?[0-5]\d(:?[0-5]\d(\.\d{1,6})?)?|Z`, with CPython's
post-match consistency requirement that the seconds separator match the
minutes separator, and the 24-hour bound of `datetime.timezone`.  When
the optional seconds/fraction group does not match, its characters are
left unconsumed (the enclosing format then fails its full-match check). -/
def pTzOffset (l : List Char) : Option (Int × List Char) :=
  match l with
  | [] => none
  | c :: r =>
    if c = 'Z' then some (0, r)
    else if c = '+' || c = '-' then
      match pDigitPair r with
      | none => none
      | some (hh, r1) =>
        let colonAndRest : Bool × List Char :=
          match r1 with
          | ':' :: rr => (true, rr)
          | _ => (false, r1)
        match pPair59 colonAndRest.2 with
        | none => none
        | some (mm, r3) =>
          let finish : Nat → Nat → List Char → Option (Int × List Char) :=
            fun ss frac rest =>
              (mkTzOffset (c = '-') hh mm ss frac).map (fun off => (off, rest))
          match r3 with
          | ':' :: rr =>
            (match pPair59 rr with
             | some (ss, r4) =>
               if colonAndRest.1 then
                 match pDotFrac r4 with
                 | some (frac, r5) => finish ss frac r5
                 | none => finish ss 0 r4
               else none
             | none => finish 0 0 r3)
          | _ =>
            (match pPair59 r3 with
             | some (ss, r4) =>
               if colonAndRest.1 then none
               else
                 match pDotFrac r4 with
                 | some (frac, r5) => finish ss frac r5
                 | none => finish ss 0 r4
             | none => finish 0 0 r3)
    else none

/-- Leap year test of the proleptic Gregorian calendar. -/
def isLeapYear (y : Nat) : Bool :=
  (y % 4 = 0 && y % 100 ≠ 0) || y % 400 = 0

/-- Days in a month (`datetime` validation). -/
def daysInMonth (y m : Nat) : Nat :=
  if m = 2 then (if isLeapYear y then 29 else 28)
  else if m = 4 || m = 6 || m = 9 || m = 11 then 30
  else 31

/-- Days from the Unix epoch to the civil date `y-m-d` (Hinnant's
`days_from_civil`, specialised to years at least 1). -/
def daysFromCivil (y mo d : Nat) : Int :=
  let y' := if mo ≤ 2 then y - 1 else y
  let era := y' / 400
  let yoe := y' % 400
  let doy := (153 * (if mo > 2 then mo - 3 else mo + 9) + 2) / 5 + (d - 1)
  let doe := yoe * 365 + yoe / 4 - yoe / 100 + doy
  ((era * 146097 + doe : Nat) : Int) - 719468

/-- `int(dt.timestamp() * 1000)` for a datetime with the given fields and
UTC offset (microseconds): exact integer truncation toward zero. -/
def epochMsOf (y mo d h mi s micro : Nat) (offUs : Int) : Int :=
  let totalUs : Int :=
    (daysFromCivil y mo d * 86400 + ((h * 3600 + mi * 60 + s : Nat) : Int)) * 1000000
      + (micro : Int) - offUs
  Int.tdiv totalUs 1000

/-- Timezone shape of an ISO format: `%z`, literal `Z`, or naive. -/
inductive TzKind where
  | ofs
  | litZ
  | naive
deriving DecidableEq, Repr

/-- One ISO format of the strptime loop: `%Y-%m-%dT%H:%M:%S`, optionally
`.%f`, then the timezone part per `k`; full match plus the `datetime`
constructor checks (year at least 1, day within month). -/
def isoFormat (hasFrac : Bool) (k : TzKind) (l : List Char) : Option Int := do
  let ((y, mo, d), l1) ← pDateYmd l
  let l2 ← pFixedCI 'T' l1
  let ((h, mi, s), l3) ← pTimeHms l2
  let (micro, l4) ← if hasFrac then pDotFrac l3 else some (0, l3)
  let (offUs, l5) ←
    match k with
    | .ofs => pTzOffset l4
    | .litZ => (pFixedCI 'Z' l4).map (fun r => ((0 : Int), r))
    | .naive => some ((0 : Int), l4)
  if l5.isEmpty && 1 ≤ y && d ≤ daysInMonth y mo then
    some (epochMsOf y mo d h mi s micro offUs)
  else none

/-- The six-format ISO loop of `parse_timestamp`, in source order. -/
def tryISOFormats (l : List Char) : Option Int :=
  isoFormat false .ofs l <|> isoFormat true .ofs l <|> isoFormat false .litZ l
    <|> isoFormat true .litZ l <|> isoFormat false .naive l <|> isoFormat true .naive l

/-- The bare-date fallback `%Y-%m-%d` (midnight UTC). -/
def tryDateFormat (l : List Char) : Option Int := do
  let ((y, mo, d), l1) ← pDateYmd l
  if l1.isEmpty && 1 ≤ y && d ≤ daysInMonth y mo then
    some (daysFromCivil y mo d * 86400000)
  else none

/-- The `ValueError` message of `parse_timestamp` for unparseable input. -/
def timestampErrorMsg (s : String) : String :=
  "Unable to parse timestamp: " ++ s
    ++ "\nSupported formats:\n  - Relative: 7d, 24h, 30m, 1w\n  - ISO 8601: 2026-01-15T10:30:00, 2026-01-15T10:30:00Z\n  - Date: 2026-01-15"

/-- `parse_timestamp(timestamp_str)` evaluated at the instant `nowMs`
(Unix milliseconds): relative grammar first, then the ISO formats on the
`Z → +00:00`-rewritten string, then the bare date, else the error.
A relative delta reaching before year 1 raises an uncaught
`OverflowError` in the source (`now - delta`), modelled as an error
distinct from the format `ValueError`. -/
def parse_timestamp (nowMs : Int) (timestamp_str : String) : Except String Int :=
  let s := pyStrip timestamp_str
  match matchRelative s with
  | some vu =>
    let target := nowMs - ((vu.1 * unit_ms vu.2 : Nat) : Int)
    if target < -62135596800000 then .error "OverflowError: date value out of range"
    else .ok target
  | none =>
    let ts := replaceSub s "Z" "+00:00"
    match tryISOFormats ts.data with
    | some ms => .ok ms
    | none =>
      match tryDateFormat s.data with
      | some ms => .ok ms
      | none => .error (timestampErrorMsg s)

/-! ### Theorems about `parse_timestamp` -/

theorem parse_relative_eval (nowMs : Int) (s : String) (v : Nat) (u : Char)
    (hm : matchRelative (pyStrip s) = some (v, u))
    (h : -62135596800000 ≤ nowMs - ((v * unit_ms u : Nat) : Int)) :
    parse_timestamp nowMs s = .ok (nowMs - ((v * unit_ms u : Nat) : Int)) := by
  unfold parse_timestamp
  simp only []
  rw [hm]
  simp only []
  rw [if_neg (by omega)]

theorem parse_via_iso (nowMs : Int) (s : String) (v : Int)
    (h1 : matchRelative (pyStrip s) = none)
    (h2 : tryISOFormats (replaceSub (pyStrip s) "Z" "+00:00").data = some v) :
    parse_timestamp nowMs s = .ok v := by
  unfold parse_timestamp
  simp only []
  rw [h1]
  simp only []
  rw [h2]

theorem parse_via_date (nowMs : Int) (s : String) (v : Int)
    (h1 : matchRelative (pyStrip s) = none)
    (h2 : tryISOFormats (replaceSub (pyStrip s) "Z" "+00:00").data = none)
    (h3 : tryDateFormat (pyStrip s).data = some v) :
    parse_timestamp nowMs s = .ok v := by
  unfold parse_timestamp
  simp only []
  rw [h1]
  simp only []
  rw [h2]
  simp only []
  rw [h3]

theorem parse_fail (nowMs : Int) (s : String)
    (h1 : matchRelative (pyStrip s) = none)
    (h2 : tryISOFormats (replaceSub (pyStrip s) "Z" "+00:00").data = none)
    (h3 : tryDateFormat (pyStrip s).data = none) :
    parse_timestamp nowMs s = .error (timestampErrorMsg (pyStrip s)) := by
  unfold parse_timestamp
  simp only []
  rw [h1]
  simp only []
  rw [h2]
  simp only []
  rw [h3]

/-- **C7**: `parse_timestamp` maps "7d" at instant T to T minus 7 days in
milliseconds (for any post-epoch T; likewise "30m", "24h", "1w"); maps
"2026-01-15" to midnight UTC of that date in milliseconds; accepts ISO
8601 forms with and without offset or Z suffix; and every input matching
none of the three grammars yields an error whose message carries the
unparsed input and lists the supported forms ("not-a-date" concretely). -/
theorem C7_parse_timestamp_grammar :
    (∀ nowMs : Int, 0 ≤ nowMs →
      parse_timestamp nowMs "7d" = .ok (nowMs - 604800000)
      ∧ parse_timestamp nowMs "30m" = .ok (nowMs - 1800000)
      ∧ parse_timestamp nowMs "24h" = .ok (nowMs - 86400000)
      ∧ parse_timestamp nowMs "1w" = .ok (nowMs - 604800000))
  ∧ (∀ nowMs : Int,
      parse_timestamp nowMs "2026-01-15" = .ok 1768435200000
      ∧ parse_timestamp nowMs "2026-01-15T10:30:00" = .ok 1768473000000
      ∧ parse_timestamp nowMs "2026-01-15T10:30:00Z" = .ok 1768473000000
      ∧ parse_timestamp nowMs "2026-01-15T10:30:00+05:00" = .ok 1768455000000)
  ∧ (∀ (nowMs : Int) (s : String),
      matchRelative (pyStrip s) = none →
      tryISOFormats (replaceSub (pyStrip s) "Z" "+00:00").data = none →
      tryDateFormat (pyStrip s).data = none →
      parse_timestamp nowMs s
        = .error ("Unable to parse timestamp: " ++ pyStrip s
            ++ "\nSupported formats:\n  - Relative: 7d, 24h, 30m, 1w\n  - ISO 8601: 2026-01-15T10:30:00, 2026-01-15T10:30:00Z\n  - Date: 2026-01-15"))
  ∧ parse_timestamp 0 "not-a-date"
      = .error "Unable to parse timestamp: not-a-date\nSupported formats:\n  - Relative: 7d, 24h, 30m, 1w\n  - ISO 8601: 2026-01-15T10:30:00, 2026-01-15T10:30:00Z\n  - Date: 2026-01-15" := by
  refine ⟨?_, ?_, ?_, ?_⟩
  · intro nowMs h
    refine ⟨?_, ?_, ?_, ?_⟩
    · have := parse_relative_eval nowMs "7d" 7 'd' (by decide)
        (by norm_num [unit_ms]; omega)
      simpa [unit_ms] using this
    · have := parse_relative_eval nowMs "30m" 30 'm' (by decide)
        (by norm_num [unit_ms]; omega)
      simpa [unit_ms] using this
    · have := parse_relative_eval nowMs "24h" 24 'h' (by decide)
        (by norm_num [unit_ms]; omega)
      simpa [unit_ms] using this
    · have := parse_relative_eval nowMs "1w" 1 'w' (by decide)
        (by norm_num [unit_ms]; omega)
      simpa [unit_ms] using this
  · intro nowMs
    refine ⟨?_, ?_, ?_, ?_⟩
    · exact parse_via_date nowMs _ _ (by decide) (by decide) (by decide)
    · exact parse_via_iso nowMs _ _ (by decide) (by decide)
    · exact parse_via_iso nowMs _ _ (by decide) (by decide)
    · exact parse_via_iso nowMs _ _ (by decide) (by decide)
  · intro nowMs s h1 h2 h3
    exact parse_fail nowMs s h1 h2 h3
  · exact parse_fail 0 "not-a-date" (by decide) (by decide) (by decide)

/-- Witness for C7: the relative-form conjunct at T = 5 and the
error-form conjunct at the concrete input "xyz". -/
theorem C7_parse_timestamp_grammar_witness :
    parse_timestamp 5 "7d" = .ok (5 - 604800000)
  ∧ parse_timestamp 0 "xyz"
      = .error ("Unable to parse timestamp: " ++ pyStrip "xyz"
          ++ "\nSupported formats:\n  - Relative: 7d, 24h, 30m, 1w\n  - ISO 8601: 2026-01-15T10:30:00, 2026-01-15T10:30:00Z\n  - Date: 2026-01-15") := by
  constructor
  · exact (C7_parse_timestamp_grammar.1 5 (by norm_num)).1
  · exact C7_parse_timestamp_grammar.2.2.1 0 "xyz" (by decide) (by decide) (by decide)

/-! ### The dedup invariant of `extract_all_queries` -/

/-- Loop invariant: every extracted question's normalization is in `seen`,
and extracted normalizations are pairwise distinct. -/
def SeenInv (st : ExtractState) : Prop :=
  (∀ q ∈ st.queries, st.seen.contains (normalize_question q.question) = true)
  ∧ st.queries.Pairwise
      (fun a b => normalize_question a.question ≠ normalize_question b.question)

theorem emitQuery_inv (convId convTitle : String) (i : Nat)
    (state : ExtractState) (lastQ : Option String) (msg' : GenieMessage)
    (sql : Option String) (h : SeenInv state) :
    SeenInv (emitQuery convId convTitle i state lastQ msg' sql).1 := by
  obtain ⟨h1, h2⟩ := h
  unfold emitQuery
  split
  · split
    · exact ⟨h1, h2⟩
    · rename_i hnotseen
      constructor
      · intro q hq
        rcases List.mem_append.mp hq with hq | hq
        · have := h1 q hq
          simp only [List.elem_iff, List.mem_append] at this ⊢
          exact Or.inl this
        · simp only [List.mem_singleton.mp hq]
          simp [List.elem_iff]
      · rw [List.pairwise_append]
        refine ⟨h2, List.pairwise_singleton _ _, ?_⟩
        intro a ha b hb
        simp only [List.mem_singleton.mp hb]
        intro hcontra
        have := h1 a ha
        rw [hcontra] at this
        exact hnotseen this
  · exact ⟨h1, h2⟩


theorem processMessage_inv (env : ReaderEnv) (convId convTitle : String)
    (st : ExtractState × Option String) (im : Nat × GenieMessage)
    (h : SeenInv st.1) : SeenInv (processMessage env convId convTitle st im).1 := by
  unfold processMessage
  simp only []
  split
  · exact h
  · split
    · exact h
    · exact emitQuery_inv _ _ _ _ _ _ _ h

theorem foldl_pair_inv (env : ReaderEnv) (convId convTitle : String)
    (msgs : List (Nat × GenieMessage)) (init : ExtractState × Option String)
    (h : SeenInv init.1) :
    SeenInv ((msgs.foldl (processMessage env convId convTitle) init).1) := by
  induction msgs generalizing init with
  | nil => exact h
  | cons m rest ih =>
    exact ih _ (processMessage_inv env convId convTitle init m h)

theorem processConversation_inv (env : ReaderEnv) (state : ExtractState)
    (conv : GenieConversation) (h : SeenInv state) :
    SeenInv (processConversation env state conv) := by
  unfold processConversation
  exact foldl_pair_inv env _ _ _ _ h

theorem foldl_conv_inv (env : ReaderEnv) (convs : List GenieConversation)
    (init : ExtractState) (h : SeenInv init) :
    SeenInv (convs.foldl (processConversation env) init) := by
  induction convs generalizing init with
  | nil => exact h
  | cons c rest ih =>
    exact ih _ (processConversation_inv env init c h)

/-- **C9**: for every conversation source, `extract_all_queries` returns no
two `ExtractedQuery` values with equal normalized questions (lowercased,
whitespace-collapsed); in the concrete two-message scenario with questions
"Show me sales by region" and "show   me sales by region", exactly one
query is extracted and the later duplicate is counted as skipped. -/
theorem C9_unique_normalized_questions :
    (∀ env : ReaderEnv,
      (extract_all_queries env).1.Pairwise
        (fun a b => normalize_question a.question ≠ normalize_question b.question))
  ∧ (extract_all_queries
      { conversations := [{ conversation_id := "c1", title := some "T" }]
        messages := fun cid =>
          if cid = "c1" then
            [ { content := some "Show me sales by region", id := some "m1" },
              { attachments := [{ query := some { query := some "SELECT r FROM s",
                                                  execution_time_ms := some 5 } }],
                status := some .completed, id := some "m2" },
              { content := some "show   me sales by region", id := some "m3" },
              { attachments := [{ query := some { query := some "SELECT r2 FROM s" } }],
                status := some .completed, id := some "m4" } ]
          else []
        fetchMessage := fun _ _ => none }
      = ([{ question := "Show me sales by region", sql := "SELECT r FROM s",
            execution_time_ms := some 5, message_id := "m2", conversation_id := "c1" }], 1)) := by
  constructor
  · intro env
    exact (foldl_conv_inv env env.conversations {} ⟨by simp, List.Pairwise.nil⟩).2
  · decide

/-! ## Trusted asset creator
(src/genie_trusted_asset_copilot/trusted_asset_creator.py)

The `WorkspaceClient`, the LLM calls and the uuid generator are
environment parameters; documents are explicit `SpaceConfig` values.
The `ThreadPoolExecutor` + `as_completed` collection is modelled in
submission order (the claims proved below are insensitive to the
completion order). -/

/-- The apostrophe character (spelled by code point). -/
def squote : Char := Char.ofNat 39

/-- One-character apostrophe string. -/
def squoteStr : String := ⟨[squote]⟩

/-- `s.replace("'", "''")` (SQL escaping). -/
def escapeQuotes (s : String) : String :=
  ⟨(s.data.map (fun c => if c = squote then [squote, squote] else [c])).flatten⟩

/-- `str.rstrip()` (no argument). -/
def pyRstrip (s : String) : String :=
  ⟨(dropLeadingWs s.data.reverse).reverse⟩

/-- `s.rstrip(";")`: drop all trailing semicolons. -/
def rstripSemis (s : String) : String :=
  ⟨(s.data.reverse.dropWhile (fun c => c = ';')).reverse⟩

/-- Split on a separator character keeping empty pieces (Python
`str.split(sep)` for a one-character separator). -/
def splitChar (sep : Char) : List Char → List (List Char)
  | [] => [[]]
  | c :: cs =>
    let r := splitChar sep cs
    if c = sep then [] :: r
    else
      match r with
      | h :: t => (c :: h) :: t
      | [] => [[c]]

/-- `TrustedAssetCreator._sql_to_lines`: format the SQL (external
`sqlparse.format`, passed in), split into lines, re-append the newline to
every line but the last. -/
def sql_to_lines (formatSql : String → String) (sql : String) : List String :=
  let lines := (splitChar '\n' (formatSql sql).data).map List.asString
  let n := lines.length
  lines.enum.map (fun p => if p.1 < n - 1 then p.2 ++ "\n" else p.2)

/-- `TrustedAssetCreator._map_to_genie_type`. -/
def map_to_genie_type (sql_type : String) : String :=
  let type_lower := pyLower sql_type
  if type_lower = "string" then "STRING"
  else if type_lower = "date" then "DATE"
  else if type_lower = "date and time" || type_lower = "timestamp"
      || type_lower = "datetime" then "TIMESTAMP"
  else if type_lower = "decimal" || type_lower = "double" || type_lower = "float"
      || type_lower = "number" || type_lower = "numeric" then "DECIMAL"
  else if type_lower = "integer" || type_lower = "int" || type_lower = "bigint"
      || type_lower = "smallint" || type_lower = "tinyint" then "INTEGER"
  else "STRING"

/-- `TrustedAssetCreator._sanitize_function_name`: first five lowercased
words, underscore-joined, non-`[a-z0-9_]` stripped, digit-leading guarded
with `fn_`, capped at 50, prefixed `genie_`. -/
def sanitize_function_name (question : String) : String :=
  let words := (pySplitWs (pyLower question)).take 5
  let name : String := pyJoin "_" words
  let name : String :=
    ⟨name.data.filter (fun c => ('a' ≤ c && c ≤ 'z') || ('0' ≤ c && c ≤ '9') || c = '_')⟩
  let name :=
    match name.data with
    | c :: _ => if c.isDigit then "fn_" ++ name else name
    | [] => name
  let name := takeChars name 50
  "genie_" ++ name

/-- `TrustedAssetCreator._format_default_value`. -/
def format_default_value (p : SQLParameter) : String :=
  match p.default_value with
  | none => "NULL"
  | some v =>
    let tU := pyUpper p.sql_type
    if tU = "STRING" || tU = "VARCHAR" || tU = "CHAR" || tU = "TEXT" then
      squoteStr ++ escapeQuotes v ++ squoteStr
    else if tU = "DATE" || tU = "TIMESTAMP" || tU = "DATETIME" then
      squoteStr ++ v ++ squoteStr
    else v

/-- `TrustedAssetCreator._build_param_definition`. -/
def build_param_definition (p : SQLParameter) : String :=
  p.name ++ " " ++ p.sql_type ++ " DEFAULT " ++ format_default_value p
    ++ " COMMENT " ++ squoteStr ++ escapeQuotes p.description ++ squoteStr

/-- Is the character a `\w` word character (ASCII model)? -/
def isWordChar (c : Char) : Bool :=
  ('a' ≤ c && c ≤ 'z') || ('A' ≤ c && c ≤ 'Z') || ('0' ≤ c && c ≤ '9') || c = '_'

/-- Scanner for `re.sub(r":(\w+)", r"\1", s)`: delete each colon that is
immediately followed by a word character. -/
def dropParamColons : List Char → List Char
  | [] => []
  | c :: cs =>
    if c = ':' && (match cs with | d :: _ => isWordChar d | [] => false) then
      dropParamColons cs
    else c :: dropParamColons cs

/-- `TrustedAssetCreator._convert_sql_placeholder_to_param`. -/
def convert_sql_placeholder_to_param (parameterized_sql : String) : String :=
  ⟨dropParamColons parameterized_sql.data⟩

/-- `TrustedAssetCreator._build_function_comment`, with the
LLM-generated description (`_generate_function_description`, fallback
included) passed in. -/
def build_function_comment (description question : String) : String :=
  let q := if pyLen question > 300 then takeChars question 297 ++ "..." else question
  let parts : List String :=
    ["## Description", "", description, "", "## Example Question", "",
     "> " ++ q, "", "---", "*Auto-generated by genie-trusted-asset-copilot*"]
  escapeQuotes (pyJoin "\\n" parts)

/-- `TrustedAssetCreator._generate_function_sql`: function name and the
CREATE OR REPLACE statement text. -/
def generate_function_sql (catalog schema description : String)
    (candidate : TrustedAssetCandidate) : String × String :=
  let func_name := sanitize_function_name candidate.question
  let full_name := catalog ++ "." ++ schema ++ "." ++ func_name
  let comment := build_function_comment description candidate.question
  let sig_body : String × String :=
    if candidate.parameters.isEmpty then ("()", candidate.sql)
    else
      let param_defs := pyJoin ",\n    " (candidate.parameters.map build_param_definition)
      ("(\n    " ++ param_defs ++ "\n)",
        match candidate.parameterized_sql with
        | some ps => if ps.data.isEmpty then candidate.sql
                     else convert_sql_placeholder_to_param ps
        | none => candidate.sql)
  let sql_body := pyRstrip (rstripSemis (pyRstrip sig_body.2))
  let create_sql :=
    "CREATE OR REPLACE FUNCTION " ++ full_name ++ sig_body.1
      ++ "\nRETURNS TABLE\nLANGUAGE SQL\nCOMMENT " ++ squoteStr ++ comment ++ squoteStr
      ++ "\nRETURN " ++ sql_body
  (func_name, create_sql)

/-- The zero-parameter fallback statement built inline in
`_create_function_with_retry` (wraps the raw SQL in parentheses). -/
def fallback_simple_sql (catalog schema fallbackDescription : String)
    (candidate : TrustedAssetCandidate) : String :=
  let func_name_simple := sanitize_function_name candidate.question
  let full_name_simple := catalog ++ "." ++ schema ++ "." ++ func_name_simple
  let comment := build_function_comment fallbackDescription candidate.question
  "CREATE OR REPLACE FUNCTION " ++ full_name_simple
    ++ "()\nRETURNS TABLE\nLANGUAGE SQL\nCOMMENT " ++ squoteStr ++ comment ++ squoteStr
    ++ "\nRETURN (" ++ candidate.sql ++ ")"

/-! ### The create-with-retry state machine -/

/-- Observable outcome of one creation-statement submission: SUCCEEDED,
or any failure (non-success terminal state, polling timeout, or a raised
exception), carrying the error text. -/
inductive AttemptOutcome where
  | succeeded
  | failed (msg : String)
deriving DecidableEq, Repr

/-- Environment of `_create_function_with_retry`: `exec k stmt` is the
outcome of submission number `k` of `stmt` (execute_statement plus the
bounded polling loop and the state check); `correct` is
`_attempt_sql_correction` (`none` = the LLM call failed); `description`
and `fallbackDescription` are the `_generate_function_description`
results for the initial and the fallback statement; `tagOk` and `smoke`
are the outcomes of the best-effort `_set_function_tags` and of
`_test_function`. -/
structure RetryEnv where
  exec : Nat → String → AttemptOutcome
  correct : String → String → Option String
  description : String
  fallbackDescription : String
  tagOk : Bool
  smoke : Bool × Option String

/-- Result of one run of the retry state machine: the `CreationResult`,
the sequence of creation-statement submissions with their outcomes
(tagging and smoke-test statements are not submissions of the creation
statement and are recorded separately), and the recorded tagging and
smoke-test outcomes when the success path ran them. -/
structure RetryRun where
  result : CreationResult
  submissions : List (String × AttemptOutcome)
  tagged : Option Bool
  smokeTested : Option (Bool × Option String)
deriving Repr

/-- The failure text of the exhausted loop:
`f"Failed after {max_retries + 1} attempts: {last_error}"`. -/
def failMessage (max_retries : Nat) (last_error : Option String) : String :=
  "Failed after " ++ toString (max_retries + 1) ++ " attempts: " ++ last_error.getD "None"

/-- The retry loop of `_create_function_with_retry`, structurally
recursive on the remaining iterations (`fuel`); a `break` (and the final
failing iteration) returns the after-loop failure value directly, which
equals the `fuel = 0` case.  Attempts are strictly sequential by
construction. -/
def retryAux (env : RetryEnv) (catalog schema : String)
    (candidate : TrustedAssetCandidate) (func_name : String) (max_retries : Nat) :
    Nat → Nat → String → Option String → List (String × AttemptOutcome) → RetryRun
  | _, 0, _, last_error, trace =>
    { result := { success := false, asset_type := "uc_function", name := func_name,
                  error := some (failMessage max_retries last_error) }
      submissions := trace, tagged := none, smokeTested := none }
  | attempt, fuel + 1, current_sql, _, trace =>
    match env.exec attempt current_sql with
    | .succeeded =>
      { result := { success := true, asset_type := "uc_function", name := func_name }
        submissions := trace ++ [(current_sql, .succeeded)]
        tagged := some env.tagOk
        smokeTested := some env.smoke }
    | .failed msg =>
      let trace' := trace ++ [(current_sql, .failed msg)]
      if attempt < max_retries then
        match env.correct current_sql msg with
        | some corrected =>
          if !corrected.data.isEmpty && corrected ≠ current_sql then
            retryAux env catalog schema candidate func_name max_retries
              (attempt + 1) fuel corrected (some msg) trace'
          else if !candidate.parameters.isEmpty && attempt = 0 then
            retryAux env catalog schema candidate func_name max_retries
              (attempt + 1) fuel
              (fallback_simple_sql catalog schema env.fallbackDescription candidate)
              (some msg) trace'
          else
            { result := { success := false, asset_type := "uc_function", name := func_name,
                          error := some (failMessage max_retries (some msg)) }
              submissions := trace', tagged := none, smokeTested := none }
        | none =>
          if !candidate.parameters.isEmpty && attempt = 0 then
            retryAux env catalog schema candidate func_name max_retries
              (attempt + 1) fuel
              (fallback_simple_sql catalog schema env.fallbackDescription candidate)
              (some msg) trace'
          else
            { result := { success := false, asset_type := "uc_function", name := func_name,
                          error := some (failMessage max_retries (some msg)) }
              submissions := trace', tagged := none, smokeTested := none }
      else
        { result := { success := false, asset_type := "uc_function", name := func_name,
                      error := some (failMessage max_retries (some msg)) }
          submissions := trace', tagged := none, smokeTested := none }

/-- `TrustedAssetCreator._create_function_with_retry`. -/
def create_function_with_retry (env : RetryEnv) (catalog schema : String)
    (candidate : TrustedAssetCandidate) (max_retries : Nat := 2) : RetryRun :=
  let fs := generate_function_sql catalog schema env.description candidate
  retryAux env catalog schema candidate fs.1 max_retries 0 (max_retries + 1) fs.2 none []

/-! ### The registry document and the two merge operations -/

/-- The `instructions` sections of the Genie space document that the
creator reads and writes (`example_question_sqls` and `sql_functions`;
the ensure-structure defaults give the empty lists). -/
structure SpaceConfig where
  examples : List ExampleQuestionSQL := []
  sql_functions : List SqlFunction := []
deriving DecidableEq, Repr

/-- Index of the LAST entry whose key equals `k` (a Python dict built by
insertion, later keys overwriting earlier ones). -/
def lastIndexBy : List String → String → Option Nat
  | [], _ => none
  | key :: rest, k =>
    match lastIndexBy rest k with
    | some i => some (i + 1)
    | none => if key = k then some 0 else none

/-- The dedup key of an existing example entry:
`_normalize_question("".join(ex.get("question", [])))`. -/
def exampleKey (ex : ExampleQuestionSQL) : String :=
  normalize_question (pyJoin "" ex.question)

/-- Environment of `TrustedAssetCreator`: constructor fields plus the
external collaborators (`guidance` = `_generate_usage_guidance` with its
internal fallback, `example_id`/`sqlfunc_id` = `_generate_unique_id`
streams, `formatSql` = `sqlparse.format`, `retryEnvOf` = the per-candidate
execution environment of the function-creation pool). -/
structure CreatorEnv where
  catalog : String
  schema : String
  warehouse_id : Option String
  guidance : TrustedAssetCandidate → String
  example_id : Nat → String
  sqlfunc_id : Nat → String
  formatSql : String → String
  retryEnvOf : TrustedAssetCandidate → RetryEnv

/-- Result of one registry-mutating call: the outcome list, the document
after the call, and the numbers of document reads and writes
(`get_space` / `update_space`) performed. -/
structure TrustedRunResult where
  results : List CreationResult
  config : SpaceConfig
  reads : Nat
  writes : Nat
deriving Repr

/-- State of the candidate-filtering loop of `create_trusted_assets`. -/
structure FilterSt where
  results : List CreationResult := []
  toRemove : List Nat := []
  dupSet : List String := []
  toProcess : List TrustedAssetCandidate := []
deriving Repr

/-- One iteration of the filtering loop of `create_trusted_assets`:
existing-question check (skip, or mark for replacement under `force`),
then the silent within-batch duplicate check. -/
def filterStep (examples : List ExampleQuestionSQL) (force : Bool)
    (st : FilterSt) (candidate : TrustedAssetCandidate) : FilterSt :=
  let normalized := normalize_question candidate.question
  match lastIndexBy (examples.map exampleKey) normalized with
  | some i =>
    if force then
      let st := { st with toRemove := st.toRemove ++ [i] }
      if st.dupSet.contains normalized then st
      else { st with dupSet := st.dupSet ++ [normalized]
                     toProcess := st.toProcess ++ [candidate] }
    else
      { st with results := st.results ++
          [{ success := false, asset_type := "trusted_asset",
             name := takeChars candidate.question 50,
             error := some "Trusted asset with this question already exists (not overwriting)" }] }
  | none =>
    if st.dupSet.contains normalized then st
    else { st with dupSet := st.dupSet ++ [normalized]
                   toProcess := st.toProcess ++ [candidate] }

/-- One new example entry (`ExampleQuestionSQL(...)` in the build loop);
`i` indexes the uuid stream. -/
def build_example (env : CreatorEnv) (i : Nat)
    (candidate : TrustedAssetCandidate) : ExampleQuestionSQL :=
  let sql_to_use := (pyOr candidate.parameterized_sql (some candidate.sql)).getD ""
  let query_params : Option (List QueryParameter) :=
    if candidate.parameters.isEmpty then none
    else some (candidate.parameters.map (fun p =>
      { name := p.name, type_hint := map_to_genie_type p.sql_type }))
  { id := env.example_id i
    question := [candidate.question]
    sql := sql_to_lines env.formatSql sql_to_use
    usage_guidance := some [env.guidance candidate]
    parameters := query_params }

/-- Descending insertion sort on `Nat` (`sorted(..., reverse=True)`). -/
def insertDesc (x : Nat) : List Nat → List Nat
  | [] => [x]
  | y :: ys => if x ≤ y then y :: insertDesc x ys else x :: y :: ys

/-- `sorted(indices, reverse=True)`. -/
def sortDescNat (l : List Nat) : List Nat :=
  l.foldl (fun acc x => insertDesc x acc) []

/-- Sequential `del lst[i]` over the given indices; `none` models the
`IndexError` raised on an out-of-range delete (possible only when `force`
marked the same index twice). -/
def removeIndices {α : Type} (l : List α) : List Nat → Option (List α)
  | [] => some l
  | i :: rest =>
    if i < l.length then removeIndices (l.eraseIdx i) rest else none

/-- Stable insertion keeping `x` after all entries with key not above its
own (Python `list.sort` is stable ascending). -/
def insertByKey {α : Type} (key : α → String) (x : α) : List α → List α
  | [] => [x]
  | y :: ys => if key y ≤ key x then y :: insertByKey key x ys else x :: y :: ys

/-- `lst.sort(key=lambda x: x.get("id", ""))`: stable ascending sort. -/
def sortByKey {α : Type} (key : α → String) (l : List α) : List α :=
  l.foldl (fun acc x => insertByKey key x acc) []

/-- `TrustedAssetCreator.create_trusted_assets`. -/
def create_trusted_assets (env : CreatorEnv) (cfg : SpaceConfig)
    (candidates : List TrustedAssetCandidate) (dry_run force : Bool) :
    TrustedRunResult :=
  if candidates.isEmpty then
    { results := [], config := cfg, reads := 0, writes := 0 }
  else
    let fs := candidates.foldl (filterStep cfg.examples force) {}
    if fs.toProcess.isEmpty then
      { results := fs.results, config := cfg, reads := 1, writes := 0 }
    else
      let new_examples := fs.toProcess.enum.map (fun p => build_example env p.1 p.2)
      let results := fs.results ++ fs.toProcess.map (fun c =>
        { success := true, asset_type := "trusted_asset",
          name := takeChars c.question 50 })
      if new_examples.isEmpty then
        { results := results, config := cfg, reads := 1, writes := 0 }
      else if dry_run then
        { results := results, config := cfg, reads := 1, writes := 0 }
      else
        match removeIndices cfg.examples (sortDescNat fs.toRemove) with
        | some remaining =>
          let updated := sortByKey ExampleQuestionSQL.id (remaining ++ new_examples)
          { results := results
            config := { cfg with examples := updated }
            reads := 1, writes := 1 }
        | none =>
          { results := results ++
              [{ success := false, asset_type := "trusted_asset", name := "batch",
                 error := some "list assignment index out of range" }]
            config := cfg, reads := 1, writes := 0 }

/-- `if not self.warehouse_id` (Python truthiness: `None` or empty). -/
def warehouse_missing : Option String → Bool
  | none => true
  | some s => s.data.isEmpty

/-- Result of `create_uc_functions`: the outcome list and the total number
of creation-statement submissions performed. -/
structure UcRunResult where
  results : List CreationResult
  submissionCount : Nat
deriving DecidableEq, Repr

/-- The duplicate-function-name filter of `create_uc_functions` (first
occurrence of each derived name survives). -/
def dedupByName (candidates : List TrustedAssetCandidate) :
    List TrustedAssetCandidate :=
  (candidates.foldl (fun (acc : List TrustedAssetCandidate × List String) c =>
    let func_name := sanitize_function_name c.question
    if acc.2.contains func_name then acc
    else (acc.1 ++ [c], acc.2 ++ [func_name])) ([], [])).1

/-- `TrustedAssetCreator.create_uc_functions` (the `force` parameter is
accepted and unused, as in the source). -/
def create_uc_functions (env : CreatorEnv)
    (candidates : List TrustedAssetCandidate) (dry_run _force : Bool) :
    UcRunResult :=
  if candidates.isEmpty then { results := [], submissionCount := 0 }
  else if warehouse_missing env.warehouse_id then
    { results := [{ success := false, asset_type := "uc_function", name := "all",
                    error := some "warehouse_id not provided" }]
      submissionCount := 0 }
  else
    let unique_candidates := dedupByName candidates
    if dry_run then
      { results := unique_candidates.map (fun c =>
          { success := true, asset_type := "uc_function",
            name := sanitize_function_name c.question })
        submissionCount := 0 }
    else
      let runs := unique_candidates.map (fun c =>
        create_function_with_retry (env.retryEnvOf c) env.catalog env.schema c 2)
      { results := runs.map (·.result)
        submissionCount := (runs.map (·.submissions.length)).sum }

/-- One iteration of the registration loop of
`register_functions_with_genie`: state is (results, indices to remove,
new `sql_functions` entries). -/
def registerStep (env : CreatorEnv) (existingIds : List String) (force : Bool)
    (st : List CreationResult × List Nat × List SqlFunction) (func_name : String) :
    List CreationResult × List Nat × List SqlFunction :=
  match lastIndexBy existingIds func_name with
  | some i =>
    if force then
      (st.1 ++ [{ success := true, asset_type := "function_registration", name := func_name }],
       st.2.1 ++ [i],
       st.2.2 ++ [{ id := env.sqlfunc_id st.2.2.length, identifier := func_name }])
    else
      (st.1 ++ [{ success := false, asset_type := "function_registration",
                  name := func_name,
                  error := some "Function already registered (use --force to replace)" }],
       st.2.1, st.2.2)
  | none =>
    (st.1 ++ [{ success := true, asset_type := "function_registration", name := func_name }],
     st.2.1,
     st.2.2 ++ [{ id := env.sqlfunc_id st.2.2.length, identifier := func_name }])

/-- `TrustedAssetCreator.register_functions_with_genie`. -/
def register_functions_with_genie (env : CreatorEnv) (cfg : SpaceConfig)
    (function_names : List String) (dry_run force : Bool) : TrustedRunResult :=
  if function_names.isEmpty then
    { results := [], config := cfg, reads := 0, writes := 0 }
  else
    let existingIds := cfg.sql_functions.map (·.identifier)
    let st := function_names.foldl (registerStep env existingIds force) ([], [], [])
    if st.2.2.isEmpty then
      { results := st.1, config := cfg, reads := 1, writes := 0 }
    else if dry_run then
      { results := st.1, config := cfg, reads := 1, writes := 0 }
    else
      match removeIndices cfg.sql_functions (sortDescNat st.2.1) with
      | some remaining =>
        let updated := sortByKey SqlFunction.id (remaining ++ st.2.2)
        { results := st.1
          config := { cfg with sql_functions := updated }
          reads := 1, writes := 1 }
      | none =>
        { results := st.1 ++
            [{ success := false, asset_type := "function_registration", name := "batch",
               error := some "list assignment index out of range" }]
          config := cfg, reads := 1, writes := 0 }

/-- Result of `create_all`. -/
structure CreateAllResult where
  trusted : List CreationResult
  uc : UcRunResult
  registered : List CreationResult
  config : SpaceConfig
  reads : Nat
  writes : Nat
deriving Repr

/-- `TrustedAssetCreator.create_all`: trusted assets, then UC functions,
then registration of the successfully created functions (guarded on
non-empty `uc_results` and non-empty `created_functions`). -/
def create_all (env : CreatorEnv) (cfg : SpaceConfig)
    (candidates : List TrustedAssetCandidate) (dry_run force : Bool)
    (create_sql_instructions create_uc_functions_flag register_uc_functions : Bool) :
    CreateAllResult :=
  let tr :=
    if create_sql_instructions then
      create_trusted_assets env cfg candidates dry_run force
    else { results := [], config := cfg, reads := 0, writes := 0 }
  let uc :=
    if create_uc_functions_flag then create_uc_functions env candidates dry_run force
    else { results := [], submissionCount := 0 }
  let created_functions := (uc.results.filter (·.success)).map (fun r =>
    env.catalog ++ "." ++ env.schema ++ "." ++ r.name)
  let reg :=
    if register_uc_functions && !uc.results.isEmpty && !created_functions.isEmpty then
      register_functions_with_genie env tr.config created_functions dry_run force
    else { results := [], config := tr.config, reads := 0, writes := 0 }
  { trusted := tr.results, uc := uc, registered := reg.results, config := reg.config,
    reads := tr.reads + reg.reads, writes := tr.writes + reg.writes }

/-! ### Theorems: empty input, missing warehouse, dry run -/

/-- **C10**: with an empty candidate list, `create_uc_functions` and
`create_trusted_assets` return an empty result list immediately — no
registry read, no write, no statement submission; in particular the
missing-warehouse failure outcome is not produced for an empty list
(the empty-list check precedes the warehouse check). -/
theorem C10_empty_candidate_list (env : CreatorEnv) (cfg : SpaceConfig)
    (dry_run force : Bool) :
    create_uc_functions env [] dry_run force = { results := [], submissionCount := 0 }
  ∧ create_trusted_assets env cfg [] dry_run force
      = { results := [], config := cfg, reads := 0, writes := 0 }
  ∧ create_uc_functions { env with warehouse_id := none } [] dry_run force
      = { results := [], submissionCount := 0 } :=
  ⟨rfl, rfl, rfl⟩

/-- **C8**: a non-empty candidate list with no warehouse configured makes
`create_uc_functions` return exactly one failed outcome naming the missing
warehouse, with zero creation-statement submissions (so no per-candidate
work), in any mode. -/
theorem C8_missing_warehouse (env : CreatorEnv)
    (candidates : List TrustedAssetCandidate) (dry_run force : Bool)
    (hne : candidates ≠ []) (hw : env.warehouse_id = none) :
    create_uc_functions env candidates dry_run force
      = { results := [{ success := false, asset_type := "uc_function", name := "all", error := some "warehouse_id not provided" }], submissionCount := 0 } := by
  unfold create_uc_functions
  rw [if_neg, if_pos]
  · rw [hw]
    rfl
  · simp [hne]

/-- Witness for C8 at a concrete environment and singleton candidate. -/
theorem C8_missing_warehouse_witness :
    create_uc_functions
      { catalog := "main", schema := "g", warehouse_id := none,
        guidance := fun _ => "", example_id := fun _ => "", sqlfunc_id := fun _ => "",
        formatSql := fun s => s,
        retryEnvOf := fun _ =>
          { exec := fun _ _ => .succeeded, correct := fun _ _ => none,
            description := "", fallbackDescription := "", tagOk := true,
            smoke := (true, none) } }
      [{ question := "q", sql := "SELECT 1",
         complexity := { complexity := .simple, reasoning := "" },
         message_id := "m", conversation_id := "c" }] false false
      = { results := [{ success := false, asset_type := "uc_function", name := "all", error := some "warehouse_id not provided" }], submissionCount := 0 } :=
  C8_missing_warehouse _ _ false false (by simp) rfl

/-- The document and candidate batch of the C6 scenario: two entries
already registered, and seven candidates of which two match existing
normalized questions and five are new. -/
def scenarioCfg : SpaceConfig :=
  { examples :=
      [{ id := "a1", question := ["Existing one"], sql := ["SELECT 1"] },
       { id := "a2", question := ["Existing two"], sql := ["SELECT 2"] }] }

def scenarioEnv : CreatorEnv :=
  { catalog := "main", schema := "g", warehouse_id := some "w",
    guidance := fun _ => "guidance", example_id := fun i => "id" ++ toString i,
    sqlfunc_id := fun i => "f" ++ toString i, formatSql := fun s => s,
    retryEnvOf := fun _ =>
      { exec := fun _ _ => .succeeded, correct := fun _ _ => none,
        description := "", fallbackDescription := "", tagOk := true,
        smoke := (true, none) } }

def scenarioCand (q : String) : TrustedAssetCandidate :=
  { question := q, sql := "SELECT 1",
    complexity := { complexity := .complex, reasoning := "" },
    message_id := "m", conversation_id := "c" }

def scenarioCands : List TrustedAssetCandidate :=
  [scenarioCand "New question 1", scenarioCand "New question 2",
   scenarioCand "New question 3", scenarioCand "New question 4",
   scenarioCand "New question 5", scenarioCand "existing  ONE",
   scenarioCand "EXISTING two"]

/-- **C6**: with `dry_run` set, `create_trusted_assets`,
`create_uc_functions` and `register_functions_with_genie` perform no
document write and no creation-statement submission while still reporting
outcomes as if applied; in the concrete 5-new/2-existing scenario
(`force` unset) the result list carries 5 success outcomes and 2
already-exists outcomes with zero writes. -/
theorem C6_dry_run_no_writes :
    (∀ (env : CreatorEnv) (cfg : SpaceConfig)
        (cands : List TrustedAssetCandidate) (force : Bool),
      (create_trusted_assets env cfg cands true force).writes = 0
      ∧ (create_trusted_assets env cfg cands true force).config = cfg)
  ∧ (∀ (env : CreatorEnv) (cands : List TrustedAssetCandidate) (force : Bool),
      (create_uc_functions env cands true force).submissionCount = 0)
  ∧ (∀ (env : CreatorEnv) (cfg : SpaceConfig) (names : List String) (force : Bool),
      (register_functions_with_genie env cfg names true force).writes = 0
      ∧ (register_functions_with_genie env cfg names true force).config = cfg)
  ∧ ((create_trusted_assets scenarioEnv scenarioCfg scenarioCands true false).results.filter
        (fun r => r.success)).length = 5
  ∧ ((create_trusted_assets scenarioEnv scenarioCfg scenarioCands true false).results.filter
        (fun r => r.error
          = some "Trusted asset with this question already exists (not overwriting)")).length = 2
  ∧ (create_trusted_assets scenarioEnv scenarioCfg scenarioCands true false).writes = 0 := by
  refine ⟨?_, ?_, ?_, ?_, ?_, ?_⟩
  · intro env cfg cands force
    unfold create_trusted_assets
    repeat' split
    all_goals try exact ⟨rfl, rfl⟩
    all_goals try simp_all
    all_goals repeat' split
    all_goals exact ⟨rfl, rfl⟩
  · intro env cands force
    unfold create_uc_functions
    repeat' split
    all_goals try rfl
    all_goals simp_all
  · intro env cfg names force
    unfold register_functions_with_genie
    repeat' split
    all_goals try exact ⟨rfl, rfl⟩
    all_goals simp_all
  · decide
  · decide
  · decide

/-! ### Theorems about the retry state machine -/

theorem retryAux_zero (env : RetryEnv) (catalog schema : String)
    (candidate : TrustedAssetCandidate) (func_name : String) (max_retries : Nat)
    (attempt : Nat) (sql : String) (last_error : Option String)
    (trace : List (String × AttemptOutcome)) :
    retryAux env catalog schema candidate func_name max_retries attempt 0 sql last_error trace
      = { result := { success := false, asset_type := "uc_function", name := func_name,
                      error := some (failMessage max_retries last_error) }
          submissions := trace, tagged := none, smokeTested := none } := by
  unfold retryAux
  rfl

theorem retryAux_submissions_le (env : RetryEnv) (catalog schema : String)
    (candidate : TrustedAssetCandidate) (func_name : String) (max_retries : Nat) :
    ∀ (fuel attempt : Nat) (sql : String) (last_error : Option String)
      (trace : List (String × AttemptOutcome)),
      (retryAux env catalog schema candidate func_name max_retries
          attempt fuel sql last_error trace).submissions.length
        ≤ trace.length + fuel := by
  intro fuel
  induction fuel with
  | zero =>
    intro attempt sql last_error trace
    rw [retryAux_zero]
    simp
  | succ n ih =>
    intro attempt sql last_error trace
    unfold retryAux
    cases hx : env.exec attempt sql with
    | succeeded =>
      simp only []
      simp
    | failed msg =>
      simp only []
      split
      · split
        · split
          · exact le_trans (ih _ _ _ _) (by simp; omega)
          · split
            · exact le_trans (ih _ _ _ _) (by simp; omega)
            · simp
        · split
          · exact le_trans (ih _ _ _ _) (by simp; omega)
          · simp
      · simp

theorem retryAux_fail_spec (env : RetryEnv) (catalog schema : String)
    (candidate : TrustedAssetCandidate) (func_name : String) (max_retries : Nat) :
    ∀ (fuel attempt : Nat) (sql : String) (last_error : Option String)
      (trace : List (String × AttemptOutcome)),
      (fuel = 0 → ∃ m st, last_error = some m
          ∧ trace.getLast? = some (st, .failed m)) →
      (retryAux env catalog schema candidate func_name max_retries
          attempt fuel sql last_error trace).result.success = false →
      ∃ stmt msg,
        (retryAux env catalog schema candidate func_name max_retries
            attempt fuel sql last_error trace).submissions.getLast?
          = some (stmt, .failed msg)
        ∧ (retryAux env catalog schema candidate func_name max_retries
            attempt fuel sql last_error trace).result.error
          = some (failMessage max_retries (some msg)) := by
  intro fuel
  induction fuel with
  | zero =>
    intro attempt sql last_error trace h0 _
    obtain ⟨m, st, hle, hlast⟩ := h0 rfl
    rw [retryAux_zero]
    exact ⟨st, m, by simpa using hlast, by rw [hle]⟩
  | succ n ih =>
    intro attempt sql last_error trace _
    unfold retryAux
    cases hx : env.exec attempt sql with
    | succeeded => simp
    | failed msg =>
      simp only []
      have hnext : ∀ f : Nat, f = 0 →
          ∃ m st, (some msg : Option String) = some m
            ∧ (trace ++ [(sql, AttemptOutcome.failed msg)]).getLast? = some (st, .failed m) :=
        fun _ _ => ⟨msg, sql, rfl, by simp⟩
      split
      · split
        · split
          · exact ih _ _ _ _ (hnext n)
          · split
            · exact ih _ _ _ _ (hnext n)
            · exact fun _ => ⟨sql, msg, by simp, rfl⟩
        · split
          · exact ih _ _ _ _ (hnext n)
          · exact fun _ => ⟨sql, msg, by simp, rfl⟩
      · exact fun _ => ⟨sql, msg, by simp, rfl⟩

theorem retryAux_fail_all (env : RetryEnv) (catalog schema : String)
    (candidate : TrustedAssetCandidate) (func_name : String) (max_retries : Nat) :
    ∀ (fuel attempt : Nat) (sql : String) (last_error : Option String)
      (trace : List (String × AttemptOutcome)),
      (∀ p ∈ trace, p.2 ≠ AttemptOutcome.succeeded) →
      (retryAux env catalog schema candidate func_name max_retries
          attempt fuel sql last_error trace).result.success = false →
      ∀ p ∈ (retryAux env catalog schema candidate func_name max_retries
          attempt fuel sql last_error trace).submissions,
        p.2 ≠ AttemptOutcome.succeeded := by
  intro fuel
  induction fuel with
  | zero =>
    intro attempt sql last_error trace htr _
    rw [retryAux_zero]
    exact htr
  | succ n ih =>
    intro attempt sql last_error trace htr
    unfold retryAux
    cases hx : env.exec attempt sql with
    | succeeded => simp
    | failed msg =>
      simp only []
      have htr' : ∀ p ∈ trace ++ [(sql, AttemptOutcome.failed msg)],
          p.2 ≠ AttemptOutcome.succeeded := by
        intro p hp
        rcases List.mem_append.mp hp with hp | hp
        · exact htr p hp
        · simp only [List.mem_singleton.mp hp]
          simp
      split
      · split
        · split
          · exact ih _ _ _ _ htr'
          · split
            · exact ih _ _ _ _ htr'
            · exact fun _ => htr'
        · split
          · exact ih _ _ _ _ htr'
          · exact fun _ => htr'
      · exact fun _ => htr'

theorem retryAux_env_agnostic (env₁ env₂ : RetryEnv) (catalog schema : String)
    (candidate : TrustedAssetCandidate) (func_name : String) (max_retries : Nat)
    (hexec : env₁.exec = env₂.exec) (hcorr : env₁.correct = env₂.correct)
    (hfdesc : env₁.fallbackDescription = env₂.fallbackDescription) :
    ∀ (fuel attempt : Nat) (sql : String) (last_error : Option String)
      (trace : List (String × AttemptOutcome)),
      (retryAux env₁ catalog schema candidate func_name max_retries
          attempt fuel sql last_error trace).result
        = (retryAux env₂ catalog schema candidate func_name max_retries
            attempt fuel sql last_error trace).result
      ∧ (retryAux env₁ catalog schema candidate func_name max_retries
          attempt fuel sql last_error trace).submissions
        = (retryAux env₂ catalog schema candidate func_name max_retries
            attempt fuel sql last_error trace).submissions := by
  intro fuel
  induction fuel with
  | zero =>
    intro attempt sql last_error trace
    rw [retryAux_zero, retryAux_zero]
    exact ⟨rfl, rfl⟩
  | succ n ih =>
    intro attempt sql last_error trace
    unfold retryAux
    rw [← hexec, ← hcorr, ← hfdesc]
    cases hx : env₁.exec attempt sql with
    | succeeded => exact ⟨rfl, rfl⟩
    | failed msg =>
      simp only []
      split
      · split
        · split
          · exact ih _ _ _ _
          · split
            · exact ih _ _ _ _
            · exact ⟨rfl, rfl⟩
        · split
          · exact ih _ _ _ _
          · exact ⟨rfl, rfl⟩
      · exact ⟨rfl, rfl⟩

/-- **C2**: for every candidate and every `max_retries`, the retry state
machine submits the creation statement at most `max_retries + 1` times
(tagging and smoke-test statements are recorded separately, never as
submissions), attempts strictly sequential; and whenever it returns an
unsuccessful outcome, its error text is the failure message built around
the last error observed (the message of the last failed submission). -/
theorem C2_retry_bound (env : RetryEnv) (catalog schema : String)
    (candidate : TrustedAssetCandidate) (max_retries : Nat) :
    (create_function_with_retry env catalog schema candidate max_retries).submissions.length
      ≤ max_retries + 1
  ∧ ((create_function_with_retry env catalog schema candidate max_retries).result.success
        = false →
      ∃ stmt msg,
        (create_function_with_retry env catalog schema candidate
            max_retries).submissions.getLast? = some (stmt, .failed msg)
        ∧ (create_function_with_retry env catalog schema candidate
            max_retries).result.error
          = some ("Failed after " ++ toString (max_retries + 1) ++ " attempts: " ++ msg)) := by
  constructor
  · simpa using retryAux_submissions_le env catalog schema candidate _ max_retries
      (max_retries + 1) 0 _ none []
  · intro hfail
    exact retryAux_fail_spec env catalog schema candidate _ max_retries
      (max_retries + 1) 0 _ none [] (fun h => absurd h (Nat.succ_ne_zero _)) hfail

/-- Witness for C2: an environment in which every submission fails with
"boom" and no correction is available exhausts the three attempts and
reports the boom message. -/
theorem C2_retry_bound_witness :
    ((create_function_with_retry
        { exec := fun _ _ => .failed "boom", correct := fun _ _ => none,
          description := "d", fallbackDescription := "d", tagOk := true,
          smoke := (true, none) } "main" "g"
        { question := "show totals", sql := "SELECT 1",
          complexity := { complexity := .complex, reasoning := "" },
          message_id := "m", conversation_id := "c" } 2).submissions.length ≤ 3)
  ∧ ∃ stmt msg,
      (create_function_with_retry
        { exec := fun _ _ => .failed "boom", correct := fun _ _ => none,
          description := "d", fallbackDescription := "d", tagOk := true,
          smoke := (true, none) } "main" "g"
        { question := "show totals", sql := "SELECT 1",
          complexity := { complexity := .complex, reasoning := "" },
          message_id := "m", conversation_id := "c" } 2).submissions.getLast?
        = some (stmt, .failed msg)
      ∧ (create_function_with_retry
          { exec := fun _ _ => .failed "boom", correct := fun _ _ => none,
            description := "d", fallbackDescription := "d", tagOk := true,
            smoke := (true, none) } "main" "g"
          { question := "show totals", sql := "SELECT 1",
            complexity := { complexity := .complex, reasoning := "" },
            message_id := "m", conversation_id := "c" } 2).result.error
        = some ("Failed after " ++ toString 3 ++ " attempts: " ++ msg) :=
  ⟨(C2_retry_bound _ "main" "g" _ 2).1, (C2_retry_bound _ "main" "g" _ 2).2 (by decide)⟩

/-- **C3**: a candidate whose creation statement reaches SUCCEEDED on some
attempt yields a successful `CreationResult`, and the result is identical
under any tagging and smoke-test outcomes (environments agreeing on
execution, correction and descriptions produce the same result). -/
theorem C3_success_not_flipped (env₁ env₂ : RetryEnv) (catalog schema : String)
    (candidate : TrustedAssetCandidate) (max_retries : Nat)
    (hexec : env₁.exec = env₂.exec) (hcorr : env₁.correct = env₂.correct)
    (hdesc : env₁.description = env₂.description)
    (hfdesc : env₁.fallbackDescription = env₂.fallbackDescription) :
    (create_function_with_retry env₁ catalog schema candidate max_retries).result
      = (create_function_with_retry env₂ catalog schema candidate max_retries).result
  ∧ ((∃ p ∈ (create_function_with_retry env₁ catalog schema candidate
        max_retries).submissions, p.2 = AttemptOutcome.succeeded) →
      (create_function_with_retry env₁ catalog schema candidate
        max_retries).result.success = true) := by
  constructor
  · unfold create_function_with_retry
    rw [hdesc]
    exact (retryAux_env_agnostic env₁ env₂ catalog schema candidate _ max_retries
      hexec hcorr hfdesc (max_retries + 1) 0 _ none []).1
  · intro hsucc
    by_contra hne
    have hfalse : (create_function_with_retry env₁ catalog schema candidate
        max_retries).result.success = false := by
      cases h : (create_function_with_retry env₁ catalog schema candidate
          max_retries).result.success
      · rfl
      · exact absurd h hne
    obtain ⟨p, hp, hps⟩ := hsucc
    exact retryAux_fail_all env₁ catalog schema candidate _ max_retries
      (max_retries + 1) 0 _ none [] (by simp) hfalse p hp hps

/-- Witness for C3: first submission succeeds; with tagging failed and a
failing smoke test the result equals the one with both passing, and it is
a success. -/
theorem C3_success_not_flipped_witness :
    (create_function_with_retry
        { exec := fun _ _ => .succeeded, correct := fun _ _ => none,
          description := "d", fallbackDescription := "d", tagOk := false,
          smoke := (false, some "smoke failed") } "main" "g"
        { question := "show totals", sql := "SELECT 1",
          complexity := { complexity := .complex, reasoning := "" },
          message_id := "m", conversation_id := "c" } 2).result
      = (create_function_with_retry
          { exec := fun _ _ => .succeeded, correct := fun _ _ => none,
            description := "d", fallbackDescription := "d", tagOk := true,
            smoke := (true, none) } "main" "g"
          { question := "show totals", sql := "SELECT 1",
            complexity := { complexity := .complex, reasoning := "" },
            message_id := "m", conversation_id := "c" } 2).result
  ∧ (create_function_with_retry
        { exec := fun _ _ => .succeeded, correct := fun _ _ => none,
          description := "d", fallbackDescription := "d", tagOk := false,
          smoke := (false, some "smoke failed") } "main" "g"
        { question := "show totals", sql := "SELECT 1",
          complexity := { complexity := .complex, reasoning := "" },
          message_id := "m", conversation_id := "c" } 2).result.success = true :=
  ⟨(C3_success_not_flipped _ _ "main" "g" _ 2 rfl rfl rfl rfl).1,
   (C3_success_not_flipped _ _ "main" "g"
      { question := "show totals", sql := "SELECT 1",
        complexity := { complexity := .complex, reasoning := "" },
        message_id := "m", conversation_id := "c" } 2 rfl rfl rfl rfl).2 (by decide)⟩

/-! ### Supporting lemmas for the idempotence theorem -/

theorem insertByKey_perm {α : Type} (key : α → String) (x : α) (l : List α) :
    (insertByKey key x l).Perm (x :: l) := by
  induction l with
  | nil => exact List.Perm.refl _
  | cons y ys ih =>
    unfold insertByKey
    split
    · exact ((ih.cons y).trans (List.Perm.swap x y ys))
    · exact List.Perm.refl _

theorem sortByKey_aux_perm {α : Type} (key : α → String) (l acc : List α) :
    (l.foldl (fun acc x => insertByKey key x acc) acc).Perm (acc ++ l) := by
  induction l generalizing acc with
  | nil => simp
  | cons x xs ih =>
    refine (ih _).trans ?_
    refine ((insertByKey_perm key x acc).append_right xs).trans ?_
    simp only [List.cons_append]
    exact List.perm_middle.symm

theorem sortByKey_mem {α : Type} (key : α → String) (l : List α) (a : α) :
    a ∈ sortByKey key l ↔ a ∈ l := by
  unfold sortByKey
  have h := sortByKey_aux_perm key l []
  simpa using h.mem_iff

theorem lastIndexBy_isSome_iff (keys : List String) (k : String) :
    (lastIndexBy keys k).isSome = true ↔ k ∈ keys := by
  induction keys with
  | nil => simp [lastIndexBy]
  | cons key rest ih =>
    unfold lastIndexBy
    cases h : lastIndexBy rest k with
    | some i =>
      simp only [Option.isSome_some, true_iff]
      rw [h] at ih
      exact List.mem_cons_of_mem _ (ih.mp (by simp))
    | none =>
      rw [h] at ih
      by_cases hk : key = k
      · simp [hk]
      · simp only [if_neg hk]
        simp only [Option.isSome_none] at ih ⊢
        constructor
        · intro hfalse
          exact absurd hfalse (by simp)
        · intro hmem
          rcases List.mem_cons.mp hmem with hmem | hmem
          · exact absurd hmem.symm hk
          · exact absurd hmem (by simpa using ih)

theorem removeIndices_nil {α : Type} (l : List α) : removeIndices l [] = some l := rfl

/-- The already-exists outcome recorded by `create_trusted_assets`. -/
def already_exists_result (c : TrustedAssetCandidate) : CreationResult :=
  { success := false, asset_type := "trusted_asset", name := takeChars c.question 50,
    error := some "Trusted asset with this question already exists (not overwriting)" }

/-- The already-registered outcome recorded by
`register_functions_with_genie`. -/
def already_registered_result (n : String) : CreationResult :=
  { success := false, asset_type := "function_registration", name := n,
    error := some "Function already registered (use --force to replace)" }

theorem exampleKey_build (env : CreatorEnv) (i : Nat) (c : TrustedAssetCandidate) :
    exampleKey (build_example env i c) = normalize_question c.question := rfl

theorem filterStep_dup_mono (ex : List ExampleQuestionSQL) (force : Bool)
    (st : FilterSt) (c : TrustedAssetCandidate) (a : String) (h : a ∈ st.dupSet) :
    a ∈ (filterStep ex force st c).dupSet := by
  unfold filterStep
  cases hl : lastIndexBy (List.map exampleKey ex) (normalize_question c.question) <;>
    (repeat' split) <;> try simp_all
  all_goals split <;> simp_all

theorem foldl_filter_dup_mono (ex : List ExampleQuestionSQL) (force : Bool)
    (cands : List TrustedAssetCandidate) (st : FilterSt) (a : String)
    (h : a ∈ st.dupSet) :
    a ∈ (cands.foldl (filterStep ex force) st).dupSet := by
  induction cands generalizing st with
  | nil => exact h
  | cons c rest ih => exact ih _ (filterStep_dup_mono ex force st c a h)

theorem filterStep_covers (ex : List ExampleQuestionSQL) (st : FilterSt)
    (c : TrustedAssetCandidate) :
    (lastIndexBy (ex.map exampleKey) (normalize_question c.question)).isSome = true
    ∨ normalize_question c.question ∈ (filterStep ex false st c).dupSet := by
  unfold filterStep
  cases h : lastIndexBy (ex.map exampleKey) (normalize_question c.question) with
  | some i => exact Or.inl (by simp [h])
  | none =>
    right
    simp only [h]
    split
    · simp_all [List.elem_iff]
    · simp

theorem filter_fold_covers (ex : List ExampleQuestionSQL)
    (cands : List TrustedAssetCandidate) (st : FilterSt) :
    ∀ c ∈ cands,
      (lastIndexBy (ex.map exampleKey) (normalize_question c.question)).isSome = true
      ∨ normalize_question c.question
          ∈ (cands.foldl (filterStep ex false) st).dupSet := by
  induction cands generalizing st with
  | nil => intro c hc; exact absurd hc (by simp)
  | cons x rest ih =>
    intro c hc
    rcases List.mem_cons.mp hc with hc | hc
    · subst hc
      rcases filterStep_covers ex st c with h | h
      · exact Or.inl h
      · exact Or.inr (foldl_filter_dup_mono ex false rest _ _ h)
    · exact ih _ c hc

theorem filterStep_dup_sub (ex : List ExampleQuestionSQL) (force : Bool)
    (st : FilterSt) (c : TrustedAssetCandidate)
    (h : ∀ a ∈ st.dupSet, a ∈ st.toProcess.map (fun c => normalize_question c.question)) :
    ∀ a ∈ (filterStep ex force st c).dupSet,
      a ∈ (filterStep ex force st c).toProcess.map (fun c => normalize_question c.question) := by
  unfold filterStep
  cases hl : lastIndexBy (List.map exampleKey ex) (normalize_question c.question) <;>
    (repeat' split) <;> intro a ha <;> try simp_all
  all_goals try (split at ha <;> split <;> simp_all)
  all_goals rcases ha with ha | ha
  all_goals try (exact ⟨c, Or.inr rfl, ha.symm⟩)
  all_goals (obtain ⟨b, hb, hbe⟩ := h a ha; exact ⟨b, Or.inl hb, hbe⟩)

theorem filter_fold_dup_sub (ex : List ExampleQuestionSQL) (force : Bool)
    (cands : List TrustedAssetCandidate) (st : FilterSt)
    (h : ∀ a ∈ st.dupSet, a ∈ st.toProcess.map (fun c => normalize_question c.question)) :
    ∀ a ∈ (cands.foldl (filterStep ex force) st).dupSet,
      a ∈ (cands.foldl (filterStep ex force) st).toProcess.map
            (fun c => normalize_question c.question) := by
  induction cands generalizing st with
  | nil => exact h
  | cons c rest ih => exact ih _ (filterStep_dup_sub ex force st c h)

theorem filterStep_toRemove_id (ex : List ExampleQuestionSQL) (st : FilterSt)
    (c : TrustedAssetCandidate) :
    (filterStep ex false st c).toRemove = st.toRemove := by
  unfold filterStep
  cases hl : lastIndexBy (List.map exampleKey ex) (normalize_question c.question) <;>
    (repeat' split) <;> try simp_all
  all_goals split <;> simp_all

theorem filter_fold_toRemove_id (ex : List ExampleQuestionSQL)
    (cands : List TrustedAssetCandidate) (st : FilterSt) :
    (cands.foldl (filterStep ex false) st).toRemove = st.toRemove := by
  induction cands generalizing st with
  | nil => rfl
  | cons c rest ih =>
    rw [List.foldl_cons, ih, filterStep_toRemove_id]

theorem filter_fold_all_existing (ex : List ExampleQuestionSQL)
    (cands : List TrustedAssetCandidate) (st : FilterSt)
    (h : ∀ c ∈ cands,
      (lastIndexBy (ex.map exampleKey) (normalize_question c.question)).isSome = true) :
    cands.foldl (filterStep ex false) st
      = { st with results := st.results ++ cands.map already_exists_result } := by
  induction cands generalizing st with
  | nil => simp
  | cons c rest ih =>
    have hc := h c (by simp)
    obtain ⟨i, hi⟩ := Option.isSome_iff_exists.mp hc
    have hstep : filterStep ex false st c
        = { st with results := st.results ++ [already_exists_result c] } := by
      unfold filterStep
      simp only []
      rw [hi]
      rfl
    rw [List.foldl_cons, hstep,
      ih _ (fun c' hc' => h c' (List.mem_cons_of_mem _ hc'))]
    simp [already_exists_result]

/-! ### C1: second-run idempotence of the full pipeline -/

theorem isEmpty_false_of_ne_nil {α : Type} {l : List α} (h : l ≠ []) :
    l.isEmpty = false := by
  cases l
  · exact absurd rfl h
  · rfl

theorem register_config_examples (env : CreatorEnv) (cfg : SpaceConfig)
    (names : List String) (dry_run force : Bool) :
    (register_functions_with_genie env cfg names dry_run force).config.examples
      = cfg.examples := by
  unfold register_functions_with_genie
  simp only []
  repeat' split
  all_goals rfl

theorem filter_fold_keys (ex : List ExampleQuestionSQL)
    (cands : List TrustedAssetCandidate) :
    ∀ c ∈ cands,
      normalize_question c.question ∈ ex.map exampleKey
      ∨ normalize_question c.question
          ∈ (cands.foldl (filterStep ex false) {}).toProcess.map
              (fun c => normalize_question c.question) := by
  intro c hc
  rcases filter_fold_covers ex cands {} c hc with h | h
  · exact Or.inl ((lastIndexBy_isSome_iff _ _).mp h)
  · refine Or.inr (filter_fold_dup_sub ex false cands {} ?_ _ h)
    intro a ha
    exact absurd ha (List.not_mem_nil a)

theorem new_examples_keys (env : CreatorEnv) (l : List TrustedAssetCandidate) :
    (l.enum.map (fun p => build_example env p.1 p.2)).map exampleKey
      = l.map (fun c => normalize_question c.question) := by
  rw [List.map_map]
  have h : (exampleKey ∘ fun p : Nat × TrustedAssetCandidate => build_example env p.1 p.2)
      = (fun c : TrustedAssetCandidate => normalize_question c.question) ∘ Prod.snd :=
    funext fun p => rfl
  rw [h, ← List.map_map, List.enum_map_snd]

theorem trusted_keys_cover (env : CreatorEnv) (cfg : SpaceConfig)
    (cands : List TrustedAssetCandidate) :
    ∀ c ∈ cands,
      normalize_question c.question
        ∈ (create_trusted_assets env cfg cands false false).config.examples.map
            exampleKey := by
  intro c hc
  have hcov := filter_fold_keys cfg.examples cands c hc
  unfold create_trusted_assets
  simp only [Bool.false_eq_true, if_false]
  rw [filter_fold_toRemove_id]
  split
  · next hemp =>
    rw [List.isEmpty_iff] at hemp
    subst hemp
    exact absurd hc (List.not_mem_nil c)
  · split
    · next hproc =>
      rcases hcov with h | h
      · exact h
      · rw [List.isEmpty_iff] at hproc
        rw [hproc] at h
        exact absurd h (List.not_mem_nil _)
    · next hproc =>
      split
      · next hnew =>
        exfalso
        apply hproc
        cases hl : (cands.foldl (filterStep cfg.examples false) {}).toProcess with
        | nil => rfl
        | cons a l =>
          rw [hl] at hnew
          exact absurd hnew (by simp)
      · split
        · next remaining hrem =>
          have h2 : cfg.examples = remaining := Option.some.inj hrem
          subst h2
          rcases hcov with h | h
          · obtain ⟨e, he, hek⟩ := List.mem_map.mp h
            exact List.mem_map.mpr
              ⟨e, (sortByKey_mem _ _ _).mpr (List.mem_append.mpr (Or.inl he)), hek⟩
          · rw [← new_examples_keys env] at h
            obtain ⟨e, he, hek⟩ := List.mem_map.mp h
            exact List.mem_map.mpr
              ⟨e, (sortByKey_mem _ _ _).mpr (List.mem_append.mpr (Or.inr he)), hek⟩
        · next hrem =>
          exact Option.noConfusion hrem

theorem trusted_all_existing (env : CreatorEnv) (cfg : SpaceConfig)
    (cands : List TrustedAssetCandidate) (dry_run : Bool)
    (hne : cands.isEmpty = false)
    (h : ∀ c ∈ cands, normalize_question c.question ∈ cfg.examples.map exampleKey) :
    create_trusted_assets env cfg cands dry_run false
      = { results := cands.map already_exists_result, config := cfg,
          reads := 1, writes := 0 } := by
  unfold create_trusted_assets
  simp only []
  rw [if_neg (by simp [hne])]
  rw [filter_fold_all_existing cfg.examples cands {}
    (fun c hc => (lastIndexBy_isSome_iff _ _).mpr (h c hc))]
  rfl

theorem registerStep_new_mono (env : CreatorEnv) (ids : List String) (force : Bool)
    (st : List CreationResult × List Nat × List SqlFunction) (n : String) (a : String)
    (h : a ∈ st.2.2.map SqlFunction.identifier) :
    a ∈ (registerStep env ids force st n).2.2.map SqlFunction.identifier := by
  unfold registerStep
  cases hl : lastIndexBy ids n <;> (repeat' split) <;> simp_all

theorem registerStep_covers (env : CreatorEnv) (ids : List String) (force : Bool)
    (st : List CreationResult × List Nat × List SqlFunction) (n : String) :
    (lastIndexBy ids n).isSome = true
    ∨ n ∈ (registerStep env ids force st n).2.2.map SqlFunction.identifier := by
  unfold registerStep
  cases hl : lastIndexBy ids n with
  | some i => exact Or.inl (by simp [hl])
  | none =>
    right
    simp only [hl]
    simp

theorem register_fold_new_mono (env : CreatorEnv) (ids : List String) (force : Bool)
    (names : List String) (st : List CreationResult × List Nat × List SqlFunction)
    (a : String) (h : a ∈ st.2.2.map SqlFunction.identifier) :
    a ∈ (names.foldl (registerStep env ids force) st).2.2.map SqlFunction.identifier := by
  induction names generalizing st with
  | nil => exact h
  | cons n rest ih => exact ih _ (registerStep_new_mono env ids force st n a h)

theorem register_fold_covers (env : CreatorEnv) (ids : List String) (force : Bool)
    (names : List String) (st : List CreationResult × List Nat × List SqlFunction) :
    ∀ n ∈ names,
      (lastIndexBy ids n).isSome = true
      ∨ n ∈ (names.foldl (registerStep env ids force) st).2.2.map
              SqlFunction.identifier := by
  induction names generalizing st with
  | nil => intro n hn; exact absurd hn (List.not_mem_nil n)
  | cons m rest ih =>
    intro n hn
    rcases List.mem_cons.mp hn with hn | hn
    · subst hn
      rcases registerStep_covers env ids force st n with h | h
      · exact Or.inl h
      · exact Or.inr (register_fold_new_mono env ids force rest _ _ h)
    · exact ih _ n hn

theorem registerStep_toRemove_id (env : CreatorEnv) (ids : List String)
    (st : List CreationResult × List Nat × List SqlFunction) (n : String) :
    (registerStep env ids false st n).2.1 = st.2.1 := by
  unfold registerStep
  cases hl : lastIndexBy ids n <;> rfl

theorem register_fold_toRemove_id (env : CreatorEnv) (ids : List String)
    (names : List String) (st : List CreationResult × List Nat × List SqlFunction) :
    (names.foldl (registerStep env ids false) st).2.1 = st.2.1 := by
  induction names generalizing st with
  | nil => rfl
  | cons n rest ih =>
    rw [List.foldl_cons, ih, registerStep_toRemove_id]

theorem register_fold_all_existing (env : CreatorEnv) (ids : List String)
    (names : List String) (st : List CreationResult × List Nat × List SqlFunction)
    (h : ∀ n ∈ names, (lastIndexBy ids n).isSome = true) :
    names.foldl (registerStep env ids false) st
      = (st.1 ++ names.map already_registered_result, st.2.1, st.2.2) := by
  induction names generalizing st with
  | nil => simp
  | cons n rest ih =>
    obtain ⟨i, hi⟩ := Option.isSome_iff_exists.mp (h n (by simp))
    have hstep : registerStep env ids false st n
        = (st.1 ++ [already_registered_result n], st.2.1, st.2.2) := by
      unfold registerStep
      rw [hi]
      rfl
    rw [List.foldl_cons, hstep,
      ih _ (fun m hm => h m (List.mem_cons_of_mem _ hm))]
    simp

theorem register_keys_cover (env : CreatorEnv) (cfg : SpaceConfig)
    (names : List String) :
    ∀ n ∈ names,
      n ∈ (register_functions_with_genie env cfg names false false).config.sql_functions.map
            (fun f => f.identifier) := by
  intro n hn
  have hcov := register_fold_covers env (cfg.sql_functions.map (fun f => f.identifier))
    false names ([], [], []) n hn
  unfold register_functions_with_genie
  simp only [Bool.false_eq_true, if_false]
  rw [register_fold_toRemove_id]
  split
  · next hemp =>
    rw [List.isEmpty_iff] at hemp
    subst hemp
    exact absurd hn (List.not_mem_nil n)
  · split
    · next hnew =>
      rcases hcov with h | h
      · exact (lastIndexBy_isSome_iff _ _).mp h
      · rw [List.isEmpty_iff] at hnew
        rw [hnew] at h
        exact absurd h (List.not_mem_nil _)
    · split
      · next remaining hrem =>
        have h2 : cfg.sql_functions = remaining := Option.some.inj hrem
        subst h2
        rcases hcov with h | h
        · obtain ⟨e, he, hek⟩ :=
            List.mem_map.mp ((lastIndexBy_isSome_iff _ _).mp h)
          exact List.mem_map.mpr
            ⟨e, (sortByKey_mem _ _ _).mpr (List.mem_append.mpr (Or.inl he)), hek⟩
        · obtain ⟨e, he, hek⟩ := List.mem_map.mp h
          exact List.mem_map.mpr
            ⟨e, (sortByKey_mem _ _ _).mpr (List.mem_append.mpr (Or.inr he)), hek⟩
      · next hrem =>
        exact Option.noConfusion hrem

theorem register_all_existing (env : CreatorEnv) (cfg : SpaceConfig)
    (names : List String) (dry_run : Bool)
    (hne : names.isEmpty = false)
    (h : ∀ n ∈ names, n ∈ cfg.sql_functions.map (fun f => f.identifier)) :
    register_functions_with_genie env cfg names dry_run false
      = { results := names.map already_registered_result, config := cfg,
          reads := 1, writes := 0 } := by
  unfold register_functions_with_genie
  simp only []
  rw [if_neg (by simp [hne])]
  rw [register_fold_all_existing env (cfg.sql_functions.map (fun f => f.identifier))
    names ([], [], []) (fun n hn => (lastIndexBy_isSome_iff _ _).mpr (h n hn))]
  rfl

theorem create_all_keys_cover (env : CreatorEnv) (cfg : SpaceConfig)
    (cands : List TrustedAssetCandidate) :
    ∀ c ∈ cands,
      normalize_question c.question
        ∈ (create_all env cfg cands false false true true true).config.examples.map
            exampleKey := by
  intro c hc
  have h1 : (create_all env cfg cands false false true true true).config.examples
      = (create_trusted_assets env cfg cands false false).config.examples := by
    unfold create_all
    simp only [reduceIte, Bool.true_and]
    split
    · exact register_config_examples env _ _ false false
    · rfl
  rw [h1]
  exact trusted_keys_cover env cfg cands c hc

theorem create_all_fn_cover (env : CreatorEnv) (cfg : SpaceConfig)
    (cands : List TrustedAssetCandidate) :
    ∀ n ∈ ((create_uc_functions env cands false false).results.filter
            (fun r => r.success)).map
          (fun r => env.catalog ++ "." ++ env.schema ++ "." ++ r.name),
      n ∈ (create_all env cfg cands false false true true true).config.sql_functions.map
            (fun f => f.identifier) := by
  intro n hn
  unfold create_all
  simp only [reduceIte, Bool.true_and]
  split
  · next hguard =>
    exact register_keys_cover env _ _ n hn
  · next hguard =>
    exfalso
    apply hguard
    obtain ⟨r, hrf, _⟩ := List.mem_map.mp hn
    rw [isEmpty_false_of_ne_nil (List.ne_nil_of_mem (List.mem_of_mem_filter hrf)),
        isEmpty_false_of_ne_nil (List.ne_nil_of_mem hn)]
    rfl

theorem create_all_second_run (env : CreatorEnv) (cfg2 : SpaceConfig)
    (cands : List TrustedAssetCandidate)
    (hex : ∀ c ∈ cands, normalize_question c.question ∈ cfg2.examples.map exampleKey)
    (hfn : ∀ n ∈ ((create_uc_functions env cands false false).results.filter
            (fun r => r.success)).map
          (fun r => env.catalog ++ "." ++ env.schema ++ "." ++ r.name),
        n ∈ cfg2.sql_functions.map (fun f => f.identifier)) :
    (create_all env cfg2 cands false false true true true).config = cfg2
    ∧ (create_all env cfg2 cands false false true true true).writes = 0
    ∧ (create_all env cfg2 cands false false true true true).trusted
        = cands.map already_exists_result
    ∧ (create_all env cfg2 cands false false true true true).registered
        = (((create_uc_functions env cands false false).results.filter
              (fun r => r.success)).map
            (fun r => env.catalog ++ "." ++ env.schema ++ "." ++ r.name)).map
            already_registered_result := by
  have htr : create_trusted_assets env cfg2 cands false false
      = { results := cands.map already_exists_result, config := cfg2,
          reads := if cands.isEmpty then 0 else 1, writes := 0 } := by
    cases cands with
    | nil => rfl
    | cons a l =>
      rw [trusted_all_existing env cfg2 (a :: l) false rfl hex]
      rfl
  have htrc : (create_trusted_assets env cfg2 cands false false).config = cfg2 := by
    rw [htr]
  have htrr : (create_trusted_assets env cfg2 cands false false).results
      = cands.map already_exists_result := by
    rw [htr]
  have htrw : (create_trusted_assets env cfg2 cands false false).writes = 0 := by
    rw [htr]
  unfold create_all
  simp only [reduceIte, Bool.true_and]
  rw [htrc, htrr, htrw]
  cases hguard : (!(create_uc_functions env cands false false).results.isEmpty
      && !(((create_uc_functions env cands false false).results.filter
            (fun r => r.success)).map
          (fun r => env.catalog ++ "." ++ env.schema ++ "." ++ r.name)).isEmpty) with
  | false =>
    simp only [Bool.false_eq_true, if_false]
    have hcreated : (((create_uc_functions env cands false false).results.filter
          (fun r => r.success)).map
        (fun r => env.catalog ++ "." ++ env.schema ++ "." ++ r.name)) = [] := by
      by_contra hne2
      obtain ⟨n, hn⟩ := List.exists_mem_of_ne_nil _ hne2
      obtain ⟨r, hrf, _⟩ := List.mem_map.mp hn
      rw [isEmpty_false_of_ne_nil (List.ne_nil_of_mem (List.mem_of_mem_filter hrf)),
          isEmpty_false_of_ne_nil hne2] at hguard
      simp at hguard
    exact ⟨by trivial, by trivial, by trivial, by rw [hcreated]; rfl⟩
  | true =>
    simp only [reduceIte]
    simp only [Bool.and_eq_true, Bool.not_eq_true'] at hguard
    rw [register_all_existing env cfg2 _ false hguard.2 hfn]
    exact ⟨by trivial, by trivial, by trivial, by trivial⟩

/-- **C1**: idempotence of the full pipeline. After a first full run of
`create_all` (SQL instructions, UC functions and Genie registration, with
`force = false` and `dry_run = false`), a second run over the same candidate
list against the registry state left by the first run adds nothing: the
registry document is unchanged and no write is performed; every candidate's
normalized question is recognized by `create_trusted_assets` as already
existing and skipped with the corresponding failure outcome; and every
successfully created function's fully-qualified name is recognized by
`register_functions_with_genie` as already registered and skipped, so no
second-run registration is counted as a success. -/
theorem C1_second_run_idempotent (env : CreatorEnv) (cfg : SpaceConfig)
    (cands : List TrustedAssetCandidate) :
    (create_all env (create_all env cfg cands false false true true true).config
        cands false false true true true).config
      = (create_all env cfg cands false false true true true).config
    ∧ (create_all env (create_all env cfg cands false false true true true).config
        cands false false true true true).writes = 0
    ∧ (create_all env (create_all env cfg cands false false true true true).config
        cands false false true true true).trusted
        = cands.map already_exists_result
    ∧ (create_all env (create_all env cfg cands false false true true true).config
        cands false false true true true).registered
        = (((create_uc_functions env cands false false).results.filter
              (fun r => r.success)).map
            (fun r => env.catalog ++ "." ++ env.schema ++ "." ++ r.name)).map
            already_registered_result :=
  create_all_second_run env _ cands (create_all_keys_cover env cfg cands)
    (create_all_fn_cover env cfg cands)

end GenieCopilot
